import Mathlib

/-!
Verification model of the Versal TRNG driver (`versal_trng.c`).

The driver is shallowly embedded: buffers of C bytes become `List Nat`
(each element meant to be `< 256`), 32-bit registers become `Nat` values
masked where the C code masks, and the memory-mapped register file
becomes a function `Nat → Nat` from register offset to last written
value.  Hardware-owned read-only registers (`TRNG_STATUS`,
`TRNG_CORE_OUTPUT`) are modelled by oracle inputs: every read the driver
performs consumes a value supplied by the environment, which is exactly
the nondeterminism of the device.  `panic()` in the C code is modelled
by `Option`: `none` means the driver panicked.

The driver header (`versal_trng.h`) is not part of the source tree;
constants and struct layout taken from it are modelled from the spec and
marked as such in their doc comments.
-/

namespace VersalTrng

/-- Register offset of the STATUS register. -/
def TRNG_STATUS : Nat := 0x04

/-- Shift of the QCNT field inside STATUS. -/
def TRNG_STATUS_QCNT_SHIFT : Nat := 9

/-- Mask of the QCNT field inside STATUS (bits 9..11). -/
def TRNG_STATUS_QCNT_MASK : Nat := 0x200 + 0x400 + 0x800

/-- Mask of the CERTF bit inside STATUS. -/
def TRNG_STATUS_CERTF_MASK : Nat := 0x8

/-- Mask of the DTF bit inside STATUS. -/
def TRNG_STATUS_DTF_MASK : Nat := 0x2

/-- Mask of the DONE bit inside STATUS. -/
def TRNG_STATUS_DONE_MASK : Nat := 0x1

/-- Register offset of the CTRL register. -/
def TRNG_CTRL : Nat := 0x08

/-- EUMODE bit of CTRL. -/
def TRNG_CTRL_EUMODE_MASK : Nat := 0x100

/-- PRNGMODE bit of CTRL. -/
def TRNG_CTRL_PRNGMODE_MASK : Nat := 0x80

/-- PRNGSTART bit of CTRL. -/
def TRNG_CTRL_PRNGSTART_MASK : Nat := 0x20

/-- PRNGXS bit of CTRL. -/
def TRNG_CTRL_PRNGXS_MASK : Nat := 0x8

/-- TRSSEN bit of CTRL. -/
def TRNG_CTRL_TRSSEN_MASK : Nat := 0x4

/-- PRNGSRST bit of CTRL. -/
def TRNG_CTRL_PRNGSRST_MASK : Nat := 0x1

/-- Register offset of the fourth control register (V2 serial seed input). -/
def TRNG_CTRL_4 : Nat := 0x14

/-- Register offset of the first external seed register. -/
def TRNG_EXT_SEED_0 : Nat := 0x40

/-- Register offset of the first personalization string register. -/
def TRNG_PER_STRING_0 : Nat := 0x80

/-- Register offset of the core output read port. -/
def TRNG_CORE_OUTPUT : Nat := 0xC0

/-- Register offset of the RESET register. -/
def TRNG_RESET : Nat := 0xD0

/-- Value mask of the RESET register. -/
def TRNG_RESET_VAL_MASK : Nat := 0x1

/-- Register offset of the oscillator-enable register. -/
def TRNG_OSC_EN : Nat := 0xD4

/-- Value mask of the oscillator-enable register. -/
def TRNG_OSC_EN_VAL_MASK : Nat := 0x1

/-- Bytes per hardware burst. -/
def TRNG_BURST_SIZE : Nat := 16

/-- Number of seed / personalization registers written as a range. -/
def TRNG_NUM_INIT_REGS : Nat := 12

/-- Bytes packed into each 32-bit register. -/
def TRNG_BYTES_PER_REG : Nat := 4

/-- Expected QCNT value when a full burst is available. -/
def TRNG_MAX_QCNT : Nat := 4

/-- Lower bound of the DF length multiplier when the DF is enabled. -/
def TRNG_MIN_DFLENMULT : Nat := 2

/-- Upper bound of the DF length multiplier when the DF is enabled. -/
def TRNG_MAX_DFLENMULT : Nat := 9

/-- CTRL value selecting the reseed PRNG mode. -/
def PRNGMODE_RESEED : Nat := 0

/-- CTRL value selecting the generate PRNG mode. -/
def PRNGMODE_GEN : Nat := TRNG_CTRL_PRNGMODE_MASK

/-- Security strength of one generate block, in bytes. -/
def TRNG_SEC_STRENGTH_LEN : Nat := 32

/-- Number of external seed registers. -/
def TRNG_SEED_REGS : Nat := 12

/-- Length in bytes of the expected KAT output and of the DF random output. -/
def TRNG_GEN_LEN : Nat := 32

/-- Bytes per DF cipher block. -/
def BYTES_PER_BLOCK : Nat := 16

/-- Stuck-entropy test pattern of alternating bits 1010…. -/
def ALL_A_PATTERN_32 : Nat := 0xAAAAAAAA

/-- Stuck-entropy test pattern of alternating bits 0101…. -/
def ALL_5_PATTERN_32 : Nat := 0x55555555

/-- Modelled from the spec: seed length in bytes (12 registers of 4 bytes,
48-byte seed), from the missing driver header. -/
def TRNG_SEED_LEN : Nat := 48

/-- Modelled from the spec: V2 initial seed length in bytes, from the
missing driver header. -/
def TRNG_V2_SEED_LEN : Nat := 128

/-- Modelled from the spec: personalization string length in bytes, from
the missing driver header. -/
def TRNG_PERS_STR_LEN : Nat := 48

/-- Modelled from the spec: number of personalization string registers,
from the missing driver header. -/
def TRNG_PERS_STR_REGS : Nat := 12

/-- Modelled from the spec: DF flag requesting a 48-byte seed output, from
the missing driver header. -/
def DF_SEED : Nat := 0

/-- Modelled from the spec: DF flag requesting a 32-byte random output,
from the missing driver header. -/
def DF_RAND : Nat := 1

/-- Modelled from the spec: the pad byte 0x80 that starts the DF padding,
from the missing driver header. -/
def DF_PAD_VAL : Nat := 0x80

/-- Modelled from the spec: length of the `pad_data` field of the DF input
structure, from the missing driver header. -/
def DF_PAD_DATA_LEN : Nat := 8

/-- Modelled from the spec: compile-time maximum of the variable entropy
field of the DF input; the maximum working seed length is
`(TRNG_MAX_DFLENMULT + 1) * BYTES_PER_BLOCK = 160` bytes. -/
def MAX_PRE_DF_LEN : Nat := 160

/-- Modelled from the spec: length of the fixed DF key `{0,…,31}`, from
the missing driver header. -/
def DF_KEY_LEN : Nat := 32

/-- Cipher block size in bytes. -/
def BLK_SIZE : Nat := 16

/-- Modelled from the spec: the block cipher round count; the key schedule
holds `BLK_SIZE * (MAX_ROUNDS + 1) = 240` bytes. -/
def MAX_ROUNDS : Nat := 14

/-! ## Timed poll (`trng_wait_for_event`)

The poll busy-loops on a register until either its masked value equals
the expected one or a monotonic deadline elapses, then performs one more
read whose masked value alone decides success.  The environment is an
oracle: `elapsed k` tells whether the deadline had elapsed at the k-th
check, `reads k` is the value returned by the k-th register read. -/

/-- Oracle input of one `trng_wait_for_event` call: the deadline
observations and the sequence of values read from the polled register. -/
structure PollInput where
  elapsed : Nat → Bool
  reads : Nat → Nat

/-- Loop of `trng_wait_for_event`: starting at read counter `k`, return
the number of register reads consumed when the do-while loop exits
(`none` if the supplied fuel is insufficient).  The loop body first
checks the deadline and breaks when it has elapsed; otherwise the loop
condition reads the register and exits when the masked value matches. -/
def pollLoop (mask event : Nat) (p : PollInput) : Nat → Nat → Option Nat
  | _, 0 => none
  | k, fuel + 1 =>
    if p.elapsed k then some k
    else if p.reads k &&& mask = event then some (k + 1)
    else pollLoop mask event p (k + 1) fuel

/-- Model of `trng_wait_for_event`: run the poll loop, then perform the
final re-read (the read at the consumed index) and succeed exactly when
its masked value equals the expected event. -/
def trng_wait_for_event (mask event : Nat) (p : PollInput) (fuel : Nat) :
    Option Bool :=
  (pollLoop mask event p 0 fuel).map (fun c => p.reads c &&& mask == event)

theorem pollLoop_elapsed_exit {mask event : Nat} {p : PollInput}
    {k fuel c : Nat} (h : pollLoop mask event p k fuel = some c) :
    p.elapsed c = true ∨ (c > k ∧ p.reads (c - 1) &&& mask = event) := by
  induction fuel generalizing k with
  | zero => simp [pollLoop] at h
  | succ n ih =>
    rw [pollLoop] at h
    by_cases he : p.elapsed k
    · simp [he] at h
      exact Or.inl (by simpa [← h] using he)
    · simp [he] at h
      by_cases hr : p.reads k &&& mask = event
      · simp [hr] at h
        exact Or.inr ⟨by omega, by simpa [← h] using hr⟩
      · simp [hr] at h
        rcases ih h with h1 | h2
        · exact Or.inl h1
        · exact Or.inr ⟨by omega, h2.2⟩

theorem pollLoop_reads_before {mask event : Nat} {p : PollInput}
    {k fuel c : Nat} (h : pollLoop mask event p k fuel = some c) :
    k ≤ c := by
  induction fuel generalizing k with
  | zero => simp [pollLoop] at h
  | succ n ih =>
    rw [pollLoop] at h
    by_cases he : p.elapsed k
    · simp [he] at h; omega
    · simp [he] at h
      by_cases hr : p.reads k &&& mask = event
      · simp [hr] at h; omega
      · simp [hr] at h
        have := ih h; omega

/-- C6: the timed poll either exits its loop because a read matched, or
because the deadline had elapsed; in every case it performs one final
re-read (the read at the consumed counter `c`, performed after the loop
exits) and it returns failure exactly when that final read, masked,
differs from the expected value.  In particular a timeout is reported
as failure only after that final post-deadline re-read, and if the
thread was descheduled past the deadline but the final re-read matches,
the call still succeeds. -/
theorem trng_wait_for_event_final_read {mask event : Nat} {p : PollInput}
    {fuel c : Nat} (h : pollLoop mask event p 0 fuel = some c) :
    trng_wait_for_event mask event p fuel
      = some (p.reads c &&& mask == event)
    ∧ (trng_wait_for_event mask event p fuel = some false
        ↔ p.reads c &&& mask ≠ event)
    ∧ ((c > 0 ∧ p.reads (c - 1) &&& mask = event) ∨ p.elapsed c = true) := by
  refine ⟨by simp [trng_wait_for_event, h], ?_, ?_⟩
  · simp only [trng_wait_for_event, h, Option.map_some]
    constructor
    · intro hf
      have : (p.reads c &&& mask == event) = false := by
        simpa using hf
      simpa using this
    · intro hne
      have : (p.reads c &&& mask == event) = false := by
        simpa using hne
      simp [this]
  · rcases pollLoop_elapsed_exit h with h1 | h2
    · exact Or.inr h1
    · exact Or.inl h2

/-- Witness for C6 at a concrete poll: the register never matches and the
deadline elapses at the third check, so the loop consumes two reads, the
final re-read is read number 2, and the poll reports failure because
that read (value 0, masked) differs from the expected value 1. -/
theorem trng_wait_for_event_final_read_witness :
    trng_wait_for_event 1 1
      ⟨fun k => decide (k ≥ 2), fun _ => 0⟩ 5 = some false := by
  have h : pollLoop 1 1 ⟨fun k => decide (k ≥ 2), fun _ => 0⟩ 0 5
      = some 2 := by decide
  have hr := (trng_wait_for_event_final_read h).1
  simpa using hr

/-! ## V2 serial seed loader (`trng_write_seed`)

The V2 no-DF path loads the seed bit by bit through `TRNG_CTRL_4`.  The
model records, per source byte, the bit values written and the `udelay`
calls performed after it, and returns the C status (0 on success). -/

/-- Microseconds of the delay issued after every byte (named the 2-clock
wait in the source). -/
def TRNGPSX_DF_2CLKS_WAIT : Nat := 2

/-- Microseconds of the delay issued on the 700-clock wait branch. -/
def TRNGPSX_DF_700CLKS_WAIT : Nat := 10

/-- Byte-count modulus of the 700-clock wait branch. -/
def TRNGPSX_DF_NUM_OF_BYTES_BEFORE_MIN_700CLKS_WAIT : Nat := 8

/-- Block length in bytes used to size the serial seed. -/
def TRNGPSX_BLOCK_LEN_IN_BYTES : Nat := 16

/-- Bits per byte. -/
def TRNGPSX_BYTE_LEN_IN_BITS : Nat := 8

/-- Events recorded while one source byte is serialised: the bit values
written to `TRNG_CTRL_4` (in write order) and the delays (µs arguments
of `udelay`) issued after the byte. -/
structure ByteTrace where
  bits : List Nat
  delays : List Nat
deriving DecidableEq

/-- Bit values of one byte in the order the loader writes them:
most-significant bit first, `bit = (seed[idx] >> (8 - 1 - cnt)) & 1`. -/
def seedBits (b : Nat) : List Nat :=
  (List.range TRNGPSX_BYTE_LEN_IN_BITS).map
    (fun cnt => b >>> (TRNGPSX_BYTE_LEN_IN_BITS - 1 - cnt) &&& 1)

/-- Write-back verification value: the byte the loader reconstructs from
the bits it wrote, `seed_construct = (uint8_t)((seed_construct << 1) | bit)`
folded over the eight bits. -/
def seedRecon (b : Nat) : Nat :=
  (List.range TRNGPSX_BYTE_LEN_IN_BITS).foldl
    (fun sc cnt =>
      (sc <<< 1 ||| (b >>> (TRNGPSX_BYTE_LEN_IN_BITS - 1 - cnt) &&& 1)) % 256)
    0

/-- Delays issued after the byte at index `idx`: always the 2-clock wait,
plus the 700-clock wait when `idx % 8 == 0`. -/
def seedDelays (idx : Nat) : List Nat :=
  [TRNGPSX_DF_2CLKS_WAIT] ++
    (if idx % TRNGPSX_DF_NUM_OF_BYTES_BEFORE_MIN_700CLKS_WAIT = 0 then
      [TRNGPSX_DF_700CLKS_WAIT] else [])

/-- Loop of `trng_write_seed` over the remaining byte count: serialise the
byte at `idx`, abort with status 1 when the reconstructed byte mismatches
the source byte (the abort skips the delays), otherwise delay and
continue; status 0 once `idx` reaches the seed length. -/
def writeSeedGo (seed : Nat → Nat) : Nat → Nat → Nat × List ByteTrace
  | _, 0 => (0, [])
  | idx, remaining + 1 =>
    let b := seed idx
    if seedRecon b ≠ b then (1, [⟨seedBits b, []⟩])
    else
      let rest := writeSeedGo seed (idx + 1) remaining
      (rest.1, ⟨seedBits b, seedDelays idx⟩ :: rest.2)

/-- Model of `trng_write_seed`: serialise `(dlen + 1) * 16` seed bytes
starting at index 0, returning the C status and the per-byte trace. -/
def trng_write_seed (seed : Nat → Nat) (dlen : Nat) : Nat × List ByteTrace :=
  writeSeedGo seed 0 ((dlen + 1) * TRNGPSX_BLOCK_LEN_IN_BYTES)

set_option maxRecDepth 4096 in
theorem seedRecon_eq_of_lt (b : Nat) (hb : b < 256) : seedRecon b = b := by
  revert hb; revert b; decide

theorem writeSeedGo_eq (seed : Nat → Nat) (idx remaining : Nat)
    (h : ∀ i, i < idx + remaining → seed i < 256) :
    writeSeedGo seed idx remaining
      = (0, (List.range remaining).map
          (fun j => ⟨seedBits (seed (idx + j)), seedDelays (idx + j)⟩)) := by
  induction remaining generalizing idx with
  | zero => simp [writeSeedGo]
  | succ n ih =>
    have hb : seed idx < 256 := h idx (by omega)
    have hrec : seedRecon (seed idx) = seed idx := seedRecon_eq_of_lt _ hb
    rw [writeSeedGo]
    simp only [hrec, ne_eq, not_true_eq_false, if_false]
    rw [ih (idx + 1) (fun i hi => h i (by omega))]
    simp [List.range_succ_eq_map, Function.comp, Nat.add_comm, Nat.add_assoc,
      Nat.add_left_comm]

/-- C8: the write-back verification of the V2 serial seed loader never
fires: the byte reconstructed from the bits written to `TRNG_CTRL_4`
equals the source byte for every byte value, so for every seed buffer
and every `dlen` the mismatch-abort branch is not taken, all
`(dlen + 1) * 16` bytes are serialised and `trng_write_seed` returns
status 0. -/
theorem trng_write_seed_success (seed : Nat → Nat) (dlen : Nat)
    (h : ∀ i, i < (dlen + 1) * TRNGPSX_BLOCK_LEN_IN_BYTES → seed i < 256) :
    (∀ b, b < 256 → seedRecon b = b)
    ∧ (trng_write_seed seed dlen).1 = 0
    ∧ (trng_write_seed seed dlen).2.length
        = (dlen + 1) * TRNGPSX_BLOCK_LEN_IN_BYTES := by
  refine ⟨seedRecon_eq_of_lt, ?_, ?_⟩ <;>
    rw [trng_write_seed, writeSeedGo_eq seed 0 _ (by simpa using h)] <;> simp

/-- Witness for C8: a concrete 16-byte seed buffer is fully serialised
with status 0. -/
theorem trng_write_seed_success_witness :
    (trng_write_seed (fun i => (17 * i + 3) % 256) 0).1 = 0
    ∧ (trng_write_seed (fun i => (17 * i + 3) % 256) 0).2.length = 16 := by
  have h := trng_write_seed_success (fun i => (17 * i + 3) % 256) 0
    (fun i _ => Nat.mod_lt _ (by omega))
  exact ⟨h.2.1, h.2.2⟩

/-- Counterexample for C5: the 700-clock wait is not issued after every
8 bytes.  With `dlen = 0` all 16 bytes are written, but the delays
issued after the 8th byte (index 7) are only the 2-clock wait — the
700-clock wait is absent there, because the code issues it after bytes
whose index is congruent to 0 mod 8 (the 1st, 9th, … bytes). -/
theorem trng_write_seed_700_misplaced :
    (trng_write_seed (fun _ => 0xA5) 0).2.length = 16
    ∧ ((trng_write_seed (fun _ => 0xA5) 0).2.getD 7 ⟨[], []⟩).delays
        = [TRNGPSX_DF_2CLKS_WAIT]
    ∧ ¬ TRNGPSX_DF_700CLKS_WAIT ∈
        ((trng_write_seed (fun _ => 0xA5) 0).2.getD 7 ⟨[], []⟩).delays := by
  refine ⟨?_, ?_, ?_⟩ <;> decide

/-- C5 (amended): the V2 serial seed loader writes each of the
`(dlen + 1) * 16` seed bytes bit by bit, most-significant bit first,
into `TRNG_CTRL_4`; it delays at least 2 clock cycles after every byte,
and it delays at least 700 clock cycles after every byte whose index is
a multiple of 8 (the 1st, 9th, 17th, … bytes) — not after every 8th
byte. -/
theorem trng_write_seed_trace (seed : Nat → Nat) (dlen : Nat)
    (h : ∀ i, i < (dlen + 1) * TRNGPSX_BLOCK_LEN_IN_BYTES → seed i < 256) :
    trng_write_seed seed dlen
      = (0, (List.range ((dlen + 1) * TRNGPSX_BLOCK_LEN_IN_BYTES)).map
          (fun i => ⟨seedBits (seed i), seedDelays i⟩)) := by
  rw [trng_write_seed, writeSeedGo_eq seed 0 _ (by simpa using h)]
  simp

/-- Witness for C5 at a concrete seed buffer and `dlen = 0`. -/
theorem trng_write_seed_trace_witness :
    trng_write_seed (fun _ => 0xA5) 0
      = (0, (List.range 16).map
          (fun i => ⟨seedBits 0xA5, seedDelays i⟩)) := by
  have h := trng_write_seed_trace (fun _ => 0xA5) 0 (fun i _ => by norm_num)
  simpa using h

/-! ## Block cipher used by the derivation function

The file-scope tables `sbx1`, `sbx2`, `sbx3` are filled once by
`trng_df_init`; they are modelled as top-level constants.  The global
`rounds` is always `MAX_ROUNDS` (set by `setup_key` before every use of
`encrypt`), so `encrypt` uses `MAX_ROUNDS` directly.  Byte arrays are
`List Nat` and array reads use `getD _ 0`. -/

/-- Base substitution box copied by `trng_df_init` into `sbx1`. -/
def sb : List Nat :=
  [0x63, 0x7c, 0x77, 0x7b, 0xf2, 0x6b, 0x6f, 0xc5, 0x30, 0x01,
   0x67, 0x2b, 0xfe, 0xd7, 0xab, 0x76, 0xca, 0x82, 0xc9, 0x7d,
   0xfa, 0x59, 0x47, 0xf0, 0xad, 0xd4, 0xa2, 0xaf, 0x9c, 0xa4,
   0x72, 0xc0, 0xb7, 0xfd, 0x93, 0x26, 0x36, 0x3f, 0xf7, 0xcc,
   0x34, 0xa5, 0xe5, 0xf1, 0x71, 0xd8, 0x31, 0x15, 0x04, 0xc7,
   0x23, 0xc3, 0x18, 0x96, 0x05, 0x9a, 0x07, 0x12, 0x80, 0xe2,
   0xeb, 0x27, 0xb2, 0x75, 0x09, 0x83, 0x2c, 0x1a, 0x1b, 0x6e,
   0x5a, 0xa0, 0x52, 0x3b, 0xd6, 0xb3, 0x29, 0xe3, 0x2f, 0x84,
   0x53, 0xd1, 0x00, 0xed, 0x20, 0xfc, 0xb1, 0x5b, 0x6a, 0xcb,
   0xbe, 0x39, 0x4a, 0x4c, 0x58, 0xcf, 0xd0, 0xef, 0xaa, 0xfb,
   0x43, 0x4d, 0x33, 0x85, 0x45, 0xf9, 0x02, 0x7f, 0x50, 0x3c,
   0x9f, 0xa8, 0x51, 0xa3, 0x40, 0x8f, 0x92, 0x9d, 0x38, 0xf5,
   0xbc, 0xb6, 0xda, 0x21, 0x10, 0xff, 0xf3, 0xd2, 0xcd, 0x0c,
   0x13, 0xec, 0x5f, 0x97, 0x44, 0x17, 0xc4, 0xa7, 0x7e, 0x3d,
   0x64, 0x5d, 0x19, 0x73, 0x60, 0x81, 0x4f, 0xdc, 0x22, 0x2a,
   0x90, 0x88, 0x46, 0xee, 0xb8, 0x14, 0xde, 0x5e, 0x0b, 0xdb,
   0xe0, 0x32, 0x3a, 0x0a, 0x49, 0x06, 0x24, 0x5c, 0xc2, 0xd3,
   0xac, 0x62, 0x91, 0x95, 0xe4, 0x79, 0xe7, 0xc8, 0x37, 0x6d,
   0x8d, 0xd5, 0x4e, 0xa9, 0x6c, 0x56, 0xf4, 0xea, 0x65, 0x7a,
   0xae, 0x08, 0xba, 0x78, 0x25, 0x2e, 0x1c, 0xa6, 0xb4, 0xc6,
   0xe8, 0xdd, 0x74, 0x1f, 0x4b, 0xbd, 0x8b, 0x8a, 0x70, 0x3e,
   0xb5, 0x66, 0x48, 0x03, 0xf6, 0x0e, 0x61, 0x35, 0x57, 0xb9,
   0x86, 0xc1, 0x1d, 0x9e, 0xe1, 0xf8, 0x98, 0x11, 0x69, 0xd9,
   0x8e, 0x94, 0x9b, 0x1e, 0x87, 0xe9, 0xce, 0x55, 0x28, 0xdf,
   0x8c, 0xa1, 0x89, 0x0d, 0xbf, 0xe6, 0x42, 0x68, 0x41, 0x99,
   0x2d, 0x0f, 0xb0, 0x54, 0xbb, 0x16]

/-- First substitution table (`memcpy(sbx1, sb, …)` in `trng_df_init`). -/
def sbx1 : List Nat := sb

/-- Second table: `sbx2[i] = (sb[i] << 1) ^ (((sb[i] >> 7) & 1) * 0x1B)`,
truncated to a byte. -/
def sbx2 : List Nat :=
  sb.map (fun s => (s <<< 1 ^^^ (s >>> 7 &&& 1) * 0x1B) % 256)

/-- Third table: `sbx3[i] = sbx2[i] ^ sb[i]`. -/
def sbx3 : List Nat :=
  (List.range 256).map (fun i => sbx2.getD i 0 ^^^ sb.getD i 0)

/-- XOR of two 16-byte blocks (`xorb(res, in)`). -/
def xorb (res inp : List Nat) : List Nat :=
  (List.range BLK_SIZE).map (fun i => res.getD i 0 ^^^ inp.getD i 0)

/-- Model of `set_key`: copy the source block and XOR in round
`roundval` of the key schedule. -/
def set_key (src : List Nat) (roundval : Nat) (sched : List Nat) : List Nat :=
  (List.range BLK_SIZE).map
    (fun i => src.getD i 0 ^^^ sched.getD (roundval * BLK_SIZE + i) 0)

/-- Model of `mix_column_sbox`: four columns, each mixing the substituted
bytes at positions `4i`, `(5+4i)%16`, `(10+4i)%16`, `(15+4i)%16`. -/
def mix_column_sbox (f : List Nat) : List Nat :=
  List.flatten ((List.range 4).map (fun i =>
    let a := 4 * i
    let b := (0x5 + a) % 16
    let c := (0xa + a) % 16
    let d := (0xf + a) % 16
    [sbx2.getD (f.getD a 0) 0 ^^^ sbx3.getD (f.getD b 0) 0
       ^^^ sbx1.getD (f.getD c 0) 0 ^^^ sbx1.getD (f.getD d 0) 0,
     sbx1.getD (f.getD a 0) 0 ^^^ sbx2.getD (f.getD b 0) 0
       ^^^ sbx3.getD (f.getD c 0) 0 ^^^ sbx1.getD (f.getD d 0) 0,
     sbx1.getD (f.getD a 0) 0 ^^^ sbx1.getD (f.getD b 0) 0
       ^^^ sbx2.getD (f.getD c 0) 0 ^^^ sbx3.getD (f.getD d 0) 0,
     sbx3.getD (f.getD a 0) 0 ^^^ sbx1.getD (f.getD b 0) 0
       ^^^ sbx1.getD (f.getD c 0) 0 ^^^ sbx2.getD (f.getD d 0) 0]))

/-- Model of `shift_row_sbox`: the combined effect of the `sbox4`,
`rota4` and `rota2` calls, written as one permutation-with-substitution
of the 16 block bytes. -/
def shift_row_sbox (f : List Nat) : List Nat :=
  [sbx1.getD (f.getD 0 0) 0, sbx1.getD (f.getD 5 0) 0,
   sbx1.getD (f.getD 10 0) 0, sbx1.getD (f.getD 15 0) 0,
   sbx1.getD (f.getD 4 0) 0, sbx1.getD (f.getD 9 0) 0,
   sbx1.getD (f.getD 14 0) 0, sbx1.getD (f.getD 3 0) 0,
   sbx1.getD (f.getD 8 0) 0, sbx1.getD (f.getD 13 0) 0,
   sbx1.getD (f.getD 2 0) 0, sbx1.getD (f.getD 7 0) 0,
   sbx1.getD (f.getD 12 0) 0, sbx1.getD (f.getD 1 0) 0,
   sbx1.getD (f.getD 6 0) 0, sbx1.getD (f.getD 11 0) 0]

/-- Middle rounds of `encrypt`: `roundval` from 1 while `< rounds`,
each applying `mix_column_sbox` then `set_key`. -/
def encryptRounds (sched : List Nat) : List Nat → Nat → Nat → List Nat
  | fa, _, 0 => fa
  | fa, roundval, steps + 1 =>
    encryptRounds sched (set_key (mix_column_sbox fa) roundval sched)
      (roundval + 1) steps

/-- Model of `encrypt`: initial key addition, `rounds - 1` middle rounds,
then `shift_row_sbox` and the final key addition. -/
def encrypt (sched inp : List Nat) : List Nat :=
  set_key (shift_row_sbox (encryptRounds sched (set_key inp 0 sched) 1
    (MAX_ROUNDS - 1))) MAX_ROUNDS sched

/-- Model of `checksum`: CBC-MAC chain over `maxBlk` 16-byte blocks,
`iv = encrypt(iv ^ block)` per block. -/
def checksum (sched : List Nat) : List Nat → List Nat → Nat → List Nat
  | _, iv, 0 => iv
  | inp, iv, maxBlk + 1 =>
    checksum sched (inp.drop BLK_SIZE) (encrypt sched (xorb iv inp)) maxBlk

/-- Byte update of the round constant in `setup_key`
(`rcon = (rcon << 1) ^ (((rcon >> 7) & 1) * 0x1B)` on an unsigned char). -/
def rconNext (rcon : Nat) : Nat :=
  (rcon <<< 1 ^^^ (rcon >>> 7 &&& 1) * 0x1B) % 256

/-- Loop of `setup_key`: extend the schedule four bytes at a time from
index `i = klen` up to 240, applying `rota4`-plus-round-constant when
`i % klen == 0` and `sbox4` when `i % klen == 16`. -/
def setupKeyGo (klen : Nat) : List Nat → Nat → Nat → Nat → List Nat
  | sched, _, _, 0 => sched
  | sched, rcon, i, steps + 1 =>
    let t0 := sched.getD (i - 4) 0
    let t1 := sched.getD (i - 3) 0
    let t2 := sched.getD (i - 2) 0
    let t3 := sched.getD (i - 1) 0
    let u :=
      if i % klen = 0 then
        (sbx1.getD t1 0 ^^^ rcon, sbx1.getD t2 0, sbx1.getD t3 0,
         sbx1.getD t0 0, rconNext rcon)
      else if i % klen = 16 then
        (sbx1.getD t0 0, sbx1.getD t1 0, sbx1.getD t2 0, sbx1.getD t3 0, rcon)
      else (t0, t1, t2, t3, rcon)
    let ik := i - klen
    setupKeyGo klen
      (sched ++ [sched.getD ik 0 ^^^ u.1, sched.getD (ik + 1) 0 ^^^ u.2.1,
        sched.getD (ik + 2) 0 ^^^ u.2.2.1, sched.getD (ik + 3) 0 ^^^ u.2.2.2.1])
      u.2.2.2.2 (i + 4) steps

/-- Model of `setup_key`: the first `klen` schedule bytes are the key,
the rest are derived by `setupKeyGo` (`sch_size = 240`). -/
def setup_key (k : List Nat) (klen : Nat) : List Nat :=
  setupKeyGo klen (k.take klen ++ List.replicate (klen - k.length) 0) 1 klen
    ((240 - klen) / 4)

/-! ## Derivation function (`trng_df_algorithm`)

The DF input `struct trng_dfin` is modelled as a flat byte list; the
field offsets follow the spec layout (4-byte `iv_counter`, 4-byte `L`,
4-byte `N`, `MAX_PRE_DF_LEN`-byte entropy, 48-byte perstring, 8-byte
pad), since the defining header is not in the source tree.  The
`dfout` parameter of the C function is a caller pointer: at the `SEED`
call sites it aliases the instance buffer `trng->dfout`, at the `RAND`
call site it is the caller output buffer, whose previous contents the
second pass reads at offsets 32..47; the model takes the aliasing flag
and those previous contents as arguments. -/

/-- Byte offset of the `ivc` field in the flat DF input. -/
def DFIN_IVC_OFF : Nat := 0

/-- Byte offset of the `val1` (input length) field. -/
def DFIN_VAL1_OFF : Nat := 4

/-- Byte offset of the `val2` (output length) field. -/
def DFIN_VAL2_OFF : Nat := 8

/-- Byte offset of the entropy field. -/
def DFIN_ENTROPY_OFF : Nat := 12

/-- Byte offset of the perstring field. -/
def DFIN_PSTR_OFF : Nat := DFIN_ENTROPY_OFF + MAX_PRE_DF_LEN

/-- Byte offset of the pad field (last field of the struct). -/
def DFIN_PAD_OFF : Nat := DFIN_PSTR_OFF + TRNG_PERS_STR_LEN

/-- Size in bytes of `struct trng_dfin`. -/
def DFIN_SIZE : Nat := DFIN_PAD_OFF + DF_PAD_DATA_LEN

/-- Fixed DF key `{0, 1, …, 31}`. -/
def df_key : List Nat :=
  [0, 1, 2, 3, 4, 5, 6, 7, 8, 9, 10, 11, 12, 13, 14, 15, 16,
   17, 18, 19, 20, 21, 22, 23, 24, 25, 26, 27, 28, 29, 30, 31]

/-- Read `n` bytes starting at offset `src` of a flat buffer. -/
def readSlice (l : List Nat) (src n : Nat) : List Nat := (l.drop src).take n

/-- Overwrite a flat buffer at offset `dst` with the given bytes. -/
def writeSlice (l : List Nat) (dst : Nat) (bytes : List Nat) : List Nat :=
  l.take dst ++ bytes ++ l.drop (dst + bytes.length)

/-- Big-endian byte image of a 32-bit value, as stored by
`TEE_U32_TO_BIG_ENDIAN` on the little-endian target. -/
def be32 (v : Nat) : List Nat :=
  [v >>> 24 &&& 255, v >>> 16 &&& 255, v >>> 8 &&& 255, v &&& 255]

/-- Read `n` bytes of a caller buffer, zero-extending a short list (a
short list would be an out-of-bounds read in C). -/
def takeD (n : Nat) (l : List Nat) : List Nat :=
  l.take n ++ List.replicate (n - l.length) 0

/-- Quantities the DF input packer computes before the shift of the
pad/perstring bytes toward the entropy: source offset of the move,
transfer length, move distance, and the formatted input length. -/
structure PackInfo where
  src : Nat
  xfer : Nat
  offset : Nat
  dfinLen : Nat
deriving DecidableEq

/-- Packer arithmetic of `trng_df_algorithm`, per presence of the
personalization string: `src`, `xfer_len`, `offset` and `dfin_len`
exactly as computed by the two branches of the C function. -/
def dfPack (len : Nat) (withPstr : Bool) : PackInfo :=
  if withPstr then
    { src := DFIN_PSTR_OFF
      xfer := DF_PAD_DATA_LEN + TRNG_PERS_STR_LEN
      offset := MAX_PRE_DF_LEN - len
      dfinLen := DFIN_SIZE + len - MAX_PRE_DF_LEN }
  else
    { src := DFIN_PAD_OFF
      xfer := DF_PAD_DATA_LEN
      offset := MAX_PRE_DF_LEN + TRNG_PERS_STR_LEN - len
      dfinLen := DFIN_SIZE + len - TRNG_PERS_STR_LEN - MAX_PRE_DF_LEN }

/-- Result of the derivation function: the DF input after packing, the
instance `dfout` buffer, and the 48 bytes the second pass stored
through the `dfout` pointer argument. -/
structure DfRes where
  dfin : List Nat
  dfout : List Nat
  out : List Nat
deriving DecidableEq

/-- Step 1 of the DF: for each 16-byte output offset, set the IV counter
field, zero the target block and run `checksum` over the formatted
input into it. -/
def dfStep1Go (sched : List Nat) (dfinLen : Nat) :
    List Nat → List Nat → Nat → Nat → List Nat × List Nat
  | dfin, dfout, _, 0 => (dfin, dfout)
  | dfin, dfout, index, steps + 1 =>
    let dfin2 := writeSlice dfin DFIN_IVC_OFF (be32 (index / BLK_SIZE))
    let blk := checksum sched dfin2 (List.replicate BLK_SIZE 0)
      (dfinLen / BLK_SIZE)
    dfStep1Go sched dfinLen dfin2 (writeSlice dfout index blk)
      (index + BLK_SIZE) steps

/-- Step 2 of the DF: chained encryption through the `dfout` pointer;
the first input block is read at offset 32 of that buffer, later input
blocks are the previously produced output blocks. -/
def dfStep2Go (sched : List Nat) : List Nat → Nat → Nat → List Nat
  | buf, _, 0 => buf
  | buf, index, steps + 1 =>
    let inp :=
      if index = 0 then readSlice buf TRNG_SEC_STRENGTH_LEN BLK_SIZE
      else readSlice buf (index - BLK_SIZE) BLK_SIZE
    dfStep2Go sched (writeSlice buf index (encrypt sched inp))
      (index + BLK_SIZE) steps

/-- Two cipher passes of `trng_df_algorithm` over the packed input. -/
def dfRun (dfin : List Nat) (info : PackInfo)
    (dfout0 outPrev : List Nat) (aliased : Bool) : Option DfRes :=
  let sched := setup_key df_key DF_KEY_LEN
  let s1 := dfStep1Go sched info.dfinLen dfin dfout0 0
    (TRNG_SEED_LEN / BLK_SIZE)
  let sched2 := setup_key (readSlice s1.2 0 DF_KEY_LEN) DF_KEY_LEN
  let b0 := if aliased then s1.2 else takeD TRNG_SEED_LEN outPrev
  let out := dfStep2Go sched2 b0 0 (TRNG_SEED_LEN / BLK_SIZE)
  some { dfin := s1.1, dfout := if aliased then out else s1.2, out := out }

/-- Packing move plus the two cipher passes of `trng_df_algorithm`,
shared by the two personalization branches.  `none` models the
`panic("Overlapping data")` taken when the move would overlap. -/
def dfMoveAndRun (dfin : List Nat) (info : PackInfo)
    (dfout0 outPrev : List Nat) (aliased : Bool) : Option DfRes :=
  if info.offset ≠ 0 then
    if info.xfer > info.offset then none
    else
      let moved := writeSlice dfin (info.src - info.offset)
        (readSlice dfin info.src info.xfer)
      dfRun (writeSlice moved (DFIN_SIZE - info.offset)
        (List.replicate info.offset 0)) info dfout0 outPrev aliased
  else dfRun dfin info dfout0 outPrev aliased

/-- Model of `trng_df_algorithm`.  `dfin0` is the flat DF input buffer of
the instance, `len` is `trng->len`, `dfout0` the instance `dfout`
buffer, `outPrev` the previous contents of the caller buffer behind the
`dfout` pointer argument and `aliased` whether that pointer is the
instance buffer itself.  `none` models the two length panics and the
overlap panic. -/
def trng_df_algorithm (dfin0 : List Nat) (len : Nat)
    (dfout0 outPrev : List Nat) (aliased : Bool) (flag : Nat)
    (pstr : Option (List Nat)) : Option DfRes :=
  let dfin := writeSlice dfin0 DFIN_VAL2_OFF
    (be32 (if flag = DF_SEED then TRNG_PERS_STR_LEN else TRNG_GEN_LEN))
  let dfin := writeSlice dfin DFIN_PAD_OFF [DF_PAD_VAL]
  match pstr with
  | none =>
    if len > MAX_PRE_DF_LEN + TRNG_PERS_STR_LEN then none
    else
      let dfin := writeSlice dfin DFIN_VAL1_OFF (be32 len)
      dfMoveAndRun dfin (dfPack len false) dfout0 outPrev aliased
  | some ps =>
    if len > MAX_PRE_DF_LEN then none
    else
      let dfin := writeSlice dfin DFIN_PSTR_OFF (takeD TRNG_PERS_STR_LEN ps)
      let dfin := writeSlice dfin DFIN_VAL1_OFF (be32 (len + TRNG_PERS_STR_LEN))
      dfMoveAndRun dfin (dfPack len true) dfout0 outPrev aliased

theorem set_key_length (src : List Nat) (r : Nat) (sched : List Nat) :
    (set_key src r sched).length = BLK_SIZE := by
  simp [set_key]

theorem encrypt_length (sched inp : List Nat) :
    (encrypt sched inp).length = BLK_SIZE :=
  set_key_length _ _ _

theorem writeSlice_length {l : List Nat} {dst : Nat} {bytes : List Nat}
    (h : dst + bytes.length ≤ l.length) :
    (writeSlice l dst bytes).length = l.length := by
  simp only [writeSlice, List.length_append, List.length_take,
    List.length_drop]
  omega

theorem takeD_length (n : Nat) (l : List Nat) : (takeD n l).length = n := by
  simp only [takeD, List.length_append, List.length_take,
    List.length_replicate]
  omega

theorem checksum_length (sched : List Nat) (inp iv : List Nat) (n : Nat)
    (h : iv.length = BLK_SIZE) :
    (checksum sched inp iv n).length = BLK_SIZE := by
  induction n generalizing inp iv with
  | zero => simpa [checksum] using h
  | succ m ih => rw [checksum]; exact ih _ _ (encrypt_length _ _)

theorem dfStep1Go_dfout_length (sched : List Nat) (dfinLen : Nat)
    (dfin dfout : List Nat) (index steps : Nat)
    (h : dfout.length = TRNG_SEED_LEN)
    (hi : index + BLK_SIZE * steps ≤ TRNG_SEED_LEN) :
    (dfStep1Go sched dfinLen dfin dfout index steps).2.length
      = TRNG_SEED_LEN := by
  induction steps generalizing dfin dfout index with
  | zero => simpa [dfStep1Go] using h
  | succ m ih =>
    rw [dfStep1Go]
    refine ih _ _ _ ?_ (by simp only [BLK_SIZE] at hi ⊢; omega)
    rw [writeSlice_length]
    · exact h
    · rw [checksum_length _ _ _ _ (by simp), h]
      simp only [BLK_SIZE, TRNG_SEED_LEN] at hi ⊢
      omega

theorem dfStep2Go_length (sched : List Nat) (buf : List Nat)
    (index steps : Nat) (h : buf.length = TRNG_SEED_LEN)
    (hi : index + BLK_SIZE * steps ≤ TRNG_SEED_LEN) :
    (dfStep2Go sched buf index steps).length = TRNG_SEED_LEN := by
  induction steps generalizing buf index with
  | zero => simpa [dfStep2Go] using h
  | succ m ih =>
    rw [dfStep2Go]
    refine ih _ _ ?_ (by simp only [BLK_SIZE] at hi ⊢; omega)
    rw [writeSlice_length]
    · exact h
    · rw [encrypt_length, h]
      simp only [BLK_SIZE, TRNG_SEED_LEN] at hi ⊢
      omega

theorem dfRun_out_length {dfin : List Nat} {info : PackInfo}
    {dfout0 outPrev : List Nat} {aliased : Bool} {r : DfRes}
    (hl : dfout0.length = TRNG_SEED_LEN)
    (h : dfRun dfin info dfout0 outPrev aliased = some r) :
    r.out.length = TRNG_SEED_LEN := by
  simp only [dfRun, Option.some_inj] at h
  subst h
  simp only
  apply dfStep2Go_length
  · cases aliased with
    | false => simp [takeD_length]
    | true =>
      simpa using dfStep1Go_dfout_length _ _ _ _ _ _ hl (by decide)
  · decide

theorem dfMoveAndRun_out_length {dfin : List Nat} {info : PackInfo}
    {dfout0 outPrev : List Nat} {aliased : Bool} {r : DfRes}
    (hl : dfout0.length = TRNG_SEED_LEN)
    (h : dfMoveAndRun dfin info dfout0 outPrev aliased = some r) :
    r.out.length = TRNG_SEED_LEN := by
  rw [dfMoveAndRun] at h
  split at h
  · split at h
    · exact absurd h (by simp)
    · exact dfRun_out_length hl h
  · exact dfRun_out_length hl h

/-- C2: for every input, both passes of the derivation function store a
full `TRNG_SEED_LEN = 48` byte result through the `dfout` pointer
argument, for the `SEED` flag and for the `RAND` flag alike: the
second-pass loop always runs to `TRNG_SEED_LEN`, so a `RAND` call
writes 48 bytes — not `TRNG_GEN_LEN = 32` — into the caller buffer. -/
theorem trng_df_algorithm_out_length (dfin0 : List Nat) (len : Nat)
    (dfout0 outPrev : List Nat) (aliased : Bool) (flag : Nat)
    (pstr : Option (List Nat)) (r : DfRes)
    (hl : dfout0.length = TRNG_SEED_LEN)
    (h : trng_df_algorithm dfin0 len dfout0 outPrev aliased flag pstr
      = some r) :
    r.out.length = TRNG_SEED_LEN ∧ TRNG_SEED_LEN = 48 ∧ TRNG_GEN_LEN = 32 := by
  refine ⟨?_, rfl, rfl⟩
  rw [trng_df_algorithm.eq_def] at h
  match pstr with
  | none =>
    simp only at h
    split at h
    · exact absurd h (by simp)
    · exact dfMoveAndRun_out_length hl h
  | some ps =>
    simp only at h
    split at h
    · exact absurd h (by simp)
    · exact dfMoveAndRun_out_length hl h

/-- Witness for C2: a concrete `RAND` call (null personalization string,
the PTRNG+DF generate path, `trng->len = 48`) succeeds and stores 48
bytes through the caller pointer. -/
theorem trng_df_algorithm_out_length_witness :
    Option.elim
      (trng_df_algorithm (List.replicate 228 0) 48 (List.replicate 48 0)
        (List.replicate 48 7) false DF_RAND none)
      False (fun r => r.out.length = TRNG_SEED_LEN ∧ TRNG_GEN_LEN = 32) := by
  have hs : (trng_df_algorithm (List.replicate 228 0) 48
      (List.replicate 48 0) (List.replicate 48 7) false DF_RAND
      none).isSome = true := rfl
  match hh : trng_df_algorithm (List.replicate 228 0) 48
      (List.replicate 48 0) (List.replicate 48 7) false DF_RAND none with
  | some r =>
    have hr := trng_df_algorithm_out_length (List.replicate 228 0) 48
      (List.replicate 48 0) (List.replicate 48 7) false DF_RAND none r
      (by simp [TRNG_SEED_LEN]) hh
    simp only [Option.elim]
    exact ⟨hr.1, hr.2.2⟩
  | none => rw [hh] at hs; simp at hs

/-- C7: in the DF input packer, whenever the shift of the pad/perstring
bytes toward the entropy copies (`offset` non-zero and the overlap
panic not taken) the transfer length is at most the offset, so the
source range `[src, src + xfer)` and the destination range
`[src - offset, src - offset + xfer)` are disjoint; and every
overlapping configuration (`xfer > offset` with `offset` non-zero)
makes `trng_df_algorithm` panic instead of copying. -/
theorem trng_df_pack_no_overlap :
    (∀ len w, (dfPack len w).offset ≠ 0 →
      (dfPack len w).xfer ≤ (dfPack len w).offset →
      (dfPack len w).src - (dfPack len w).offset + (dfPack len w).xfer
          ≤ (dfPack len w).src
      ∧ ∀ i j, i < (dfPack len w).xfer → j < (dfPack len w).xfer →
          (dfPack len w).src + i
            ≠ (dfPack len w).src - (dfPack len w).offset + j)
    ∧ ∀ (dfin0 : List Nat) (len : Nat) (dfout0 outPrev : List Nat)
        (aliased : Bool) (flag : Nat) (ps : Option (List Nat)),
        (dfPack len ps.isSome).offset ≠ 0 →
        (dfPack len ps.isSome).xfer > (dfPack len ps.isSome).offset →
        trng_df_algorithm dfin0 len dfout0 outPrev aliased flag ps = none := by
  constructor
  · intro len w h0 hx
    cases w with
    | false =>
      simp only [dfPack, if_true, if_false, Bool.false_eq_true,
        DFIN_PSTR_OFF, DFIN_PAD_OFF, DFIN_ENTROPY_OFF, MAX_PRE_DF_LEN,
        TRNG_PERS_STR_LEN, DF_PAD_DATA_LEN] at h0 hx ⊢
      refine ⟨by omega, fun i j hi hj => by omega⟩
    | true =>
      simp only [dfPack, if_true, if_false,
        DFIN_PSTR_OFF, DFIN_PAD_OFF, DFIN_ENTROPY_OFF, MAX_PRE_DF_LEN,
        TRNG_PERS_STR_LEN, DF_PAD_DATA_LEN] at h0 hx ⊢
      refine ⟨by omega, fun i j hi hj => by omega⟩
  · intro dfin0 len dfout0 outPrev aliased flag ps h0 hx
    match ps with
    | none =>
      simp only [Option.isSome_none] at h0 hx
      by_cases hlen : len > MAX_PRE_DF_LEN + TRNG_PERS_STR_LEN
      · simp [trng_df_algorithm, hlen]
      · simp [trng_df_algorithm, hlen, dfMoveAndRun, h0, hx]
    | some p =>
      simp only [Option.isSome_some] at h0 hx
      by_cases hlen : len > MAX_PRE_DF_LEN
      · simp [trng_df_algorithm, hlen]
      · simp [trng_df_algorithm, hlen, dfMoveAndRun, h0, hx]

/-- Witness for C7: at `trng->len = 48` with a personalization string the
move is disjoint (`offset = 112 ≥ xfer = 56`); at `trng->len = 144`
with a personalization string the move would overlap
(`xfer = 56 > offset = 16`) and the DF panics. -/
theorem trng_df_pack_no_overlap_witness :
    ((dfPack 48 true).src - (dfPack 48 true).offset + (dfPack 48 true).xfer
      ≤ (dfPack 48 true).src)
    ∧ trng_df_algorithm (List.replicate 228 0) 144 (List.replicate 48 0)
        [] true DF_SEED (some (List.replicate 48 1)) = none := by
  refine ⟨(trng_df_pack_no_overlap.1 48 true (by decide) (by decide)).1, ?_⟩
  exact trng_df_pack_no_overlap.2 (List.replicate 228 0) 144
    (List.replicate 48 0) [] true DF_SEED (some (List.replicate 48 1))
    (by decide) (by decide)

/-! ## Engine state

`struct versal_trng` and its sub-structures, from the spec data model
(the defining header is not in the source tree): user configuration,
statistics, status, the working seed length `len`, the 4-word last-burst
buffer `buf`, the 48-byte DF output `dfout` and the flat DF input
`dfin`.  The register file is a function from offset to the last value
the driver wrote. -/

/-- Silicon revision of the IP block. -/
inductive TrngVersion
  | v1
  | v2
deriving DecidableEq

/-- Operating mode. -/
inductive TrngMode
  | hrng
  | drng
  | ptrng
deriving DecidableEq

/-- Instance status. -/
inductive TrngStatus
  | uninitialized
  | healthy
  | error
  | catastrophic
deriving DecidableEq

/-- Result codes used by the driver (`TEE_SUCCESS` and the generic
failure every fault is mapped to). -/
inductive TeeResult
  | success
  | errorGeneric
deriving DecidableEq

/-- User configuration (`struct trng_usr_cfg`), from the spec data
model. -/
structure TrngUsrCfg where
  mode : TrngMode
  seed_life : Nat
  predict_en : Bool
  iseed_en : Bool
  pstr_en : Bool
  df_disable : Bool
  dfmul : Nat
  init_seed : List Nat
  pstr : List Nat
deriving DecidableEq

/-- Modelled from the spec: the user configuration after `memset(…, 0)`.
The numeric values of the mode enumeration are in the missing header;
the zeroed mode is represented here by `TrngMode.hrng`.  No theorem
depends on that choice: a zeroed configuration has `seed_life = 0` and
is therefore never a configured DRNG/HRNG instance. -/
def zeroUsrCfg : TrngUsrCfg where
  mode := TrngMode.hrng
  seed_life := 0
  predict_en := false
  iseed_en := false
  pstr_en := false
  df_disable := false
  dfmul := 0
  init_seed := List.replicate TRNG_V2_SEED_LEN 0
  pstr := List.replicate TRNG_PERS_STR_LEN 0

/-- Accumulated statistics (`struct trng_stats`). -/
structure TrngStats where
  bytes : Nat
  bytes_reseed : Nat
  elapsed_seed_life : Nat
deriving DecidableEq

/-- In-memory state of one instance (`struct versal_trng` minus the MMIO
window bookkeeping). -/
structure TrngState where
  version : TrngVersion
  status : TrngStatus
  usr_cfg : TrngUsrCfg
  stats : TrngStats
  len : Nat
  buf : List Nat
  dfout : List Nat
  dfin : List Nat
deriving DecidableEq

/-- Driver-visible machine: instance state plus the register file of
driver-written registers. -/
structure Mach where
  t : TrngState
  regs : Nat → Nat

/-- Freshly powered instance: everything zero, status UNINITIALIZED. -/
def initTrng (v : TrngVersion) : TrngState where
  version := v
  status := TrngStatus.uninitialized
  usr_cfg := zeroUsrCfg
  stats := ⟨0, 0, 0⟩
  len := 0
  buf := List.replicate 4 0
  dfout := List.replicate TRNG_SEED_LEN 0
  dfin := List.replicate DFIN_SIZE 0

/-- Model of `trng_write32`. -/
def trng_write32 (regs : Nat → Nat) (off val : Nat) : Nat → Nat :=
  fun o => if o = off then val else regs o

/-- Model of `trng_clrset32` (`reg = (reg & ~mask) | (mask & val)` on the
32-bit register). -/
def trng_clrset32 (regs : Nat → Nat) (off mask val : Nat) : Nat → Nat :=
  trng_write32 regs off ((regs off &&& (0xFFFFFFFF ^^^ mask)) ||| (mask &&& val))

/-- Loop of `trng_write32_range`: a null buffer writes zeros in forward
register order; a buffer is packed into big-endian words written in
reverse register order. -/
def writeRangeGo (start : Nat) (buf : Option (List Nat)) :
    (Nat → Nat) → Nat → Nat → Nat → Nat
  | regs, _, 0 => regs
  | regs, i, n + 1 =>
    match buf with
    | none =>
      writeRangeGo start none
        (trng_write32 regs (start + i * TRNG_BYTES_PER_REG) 0) (i + 1) n
    | some b =>
      let val := (List.range TRNG_BYTES_PER_REG).foldl
        (fun v cnt => v <<< 8 ||| b.getD (i * TRNG_BYTES_PER_REG + cnt) 0) 0
      writeRangeGo start (some b)
        (trng_write32 regs
          (start + (TRNG_NUM_INIT_REGS - 1 - i) * TRNG_BYTES_PER_REG) val)
        (i + 1) n

/-- Model of `trng_write32_range`. -/
def trng_write32_range (regs : Nat → Nat) (start num : Nat)
    (buf : Option (List Nat)) : Nat → Nat :=
  writeRangeGo start buf regs 0 num

/-- Model of `trng_soft_reset`: pulse PRNGSRST in CTRL. -/
def trng_soft_reset (regs : Nat → Nat) : Nat → Nat :=
  trng_clrset32
    (trng_clrset32 regs TRNG_CTRL TRNG_CTRL_PRNGSRST_MASK
      TRNG_CTRL_PRNGSRST_MASK)
    TRNG_CTRL TRNG_CTRL_PRNGSRST_MASK 0

/-- Model of `trng_reset`: pulse the RESET register, then soft reset. -/
def trng_reset (regs : Nat → Nat) : Nat → Nat :=
  trng_soft_reset
    (trng_write32 (trng_write32 regs TRNG_RESET TRNG_RESET_VAL_MASK)
      TRNG_RESET 0)

/-- Model of `trng_hold_reset`: assert PRNGSRST and leave RESET written
high. -/
def trng_hold_reset (regs : Nat → Nat) : Nat → Nat :=
  trng_write32
    (trng_clrset32 regs TRNG_CTRL TRNG_CTRL_PRNGSRST_MASK
      TRNG_CTRL_PRNGSRST_MASK)
    TRNG_RESET TRNG_RESET_VAL_MASK

/-- Loop of `trng_check_seed` over the 32-bit words of the collected
entropy (little-endian loads on the target); `true` is `TEE_SUCCESS`. -/
def checkSeedGo (entropy : List Nat) : Nat → Nat → Bool
  | _, 0 => true
  | i, k + 1 =>
    let w := entropy.getD (4 * i) 0 ||| entropy.getD (4 * i + 1) 0 <<< 8
      ||| entropy.getD (4 * i + 2) 0 <<< 16
      ||| entropy.getD (4 * i + 3) 0 <<< 24
    if w = ALL_A_PATTERN_32 ∨ w = ALL_5_PATTERN_32 then false
    else checkSeedGo entropy (i + 1) k

/-- Model of `trng_check_seed`. -/
def trng_check_seed (entropy : List Nat) (len : Nat) : Bool :=
  checkSeedGo entropy 0 (len / 4)

/-! ## Burst collection (`trng_collect_random`)

Hardware reads are oracle inputs: per burst, the QCNT poll (a
`PollInput` plus fuel), the STATUS value read for the DTF check and the
four CORE_OUTPUT words. -/

/-- Bits per burst. -/
def TRNG_BURST_SIZE_BITS : Nat := 128

/-- Bits per register. -/
def TRNG_REG_SIZE : Nat := 32

/-- Oracle input of one 16-byte burst. -/
structure BurstIn where
  poll : PollInput
  fuel : Nat
  status : Nat
  words : Nat → Nat

/-- Result of `trng_collect_random`: updated instance and registers, the
bytes stored through `dst`, the list of 4-word bursts actually read
from CORE_OUTPUT, and whether the call returned `TEE_SUCCESS`. -/
structure CollectRes where
  t : TrngState
  regs : Nat → Nat
  out : List Nat
  trace : List (List Nat)
  ok : Bool

/-- Word loop of one burst: read the four CORE_OUTPUT words, compare each
against the previous burst buffer before overwriting it (tracking the
`match` flag), and append the big-endian byte image of each word to the
output.  Returns the new burst buffer, the `match` flag and the output
bytes. -/
def wordLoop (bcnt : Nat) (w : Nat → Nat) :
    List Nat → Nat → Nat → List Nat × Bool × List Nat
  | _, _, 0 => ([], true, [])
  | old, wcnt, k + 1 =>
    let val := w wcnt
    let m0 := ! (decide (bcnt > 0) && decide (old.headD 0 ≠ val))
    let rest := wordLoop bcnt w old.tail (wcnt + 1) k
    (val :: rest.1, m0 && rest.2.1, be32 val ++ rest.2.2)

/-- Burst loop of `trng_collect_random`: per burst, poll QCNT, check DTF
(CATASTROPHIC when set, unless in PTRNG mode), read the four words, and
flag CATASTROPHIC when a burst after the first repeats the previous
burst exactly. -/
def collectGo (ins : Nat → BurstIn) (bursts : Nat) (dstNull : Bool) :
    TrngState → (Nat → Nat) → Nat → Nat → CollectRes
  | t, regs, _, 0 => ⟨t, regs, [], [], true⟩
  | t, regs, bcnt, remaining + 1 =>
    let b := ins bcnt
    if trng_wait_for_event TRNG_STATUS_QCNT_MASK
        (TRNG_MAX_QCNT <<< TRNG_STATUS_QCNT_SHIFT) b.poll b.fuel
        ≠ some true then
      ⟨t, regs, [], [], false⟩
    else if t.usr_cfg.mode ≠ TrngMode.ptrng
        ∧ b.status &&& TRNG_STATUS_DTF_MASK ≠ 0 then
      ⟨{ t with status := TrngStatus.catastrophic }, regs, [], [], false⟩
    else
      let ws := wordLoop bcnt b.words t.buf 0
        (TRNG_BURST_SIZE_BITS / TRNG_REG_SIZE)
      let t2 := { t with buf := ws.1 }
      let outHere := if dstNull then [] else ws.2.2
      if bursts > 1 ∧ bcnt > 0 ∧ ws.2.1 = true then
        ⟨{ t2 with status := TrngStatus.catastrophic }, regs, outHere,
          [ws.1], false⟩
      else
        let rest := collectGo ins bursts dstNull t2 regs (bcnt + 1) remaining
        ⟨rest.t, rest.regs, outHere ++ rest.out, ws.1 :: rest.trace, rest.ok⟩

/-- Model of `trng_collect_random`: set PRNGSTART, then collect
`len / TRNG_BURST_SIZE` bursts. -/
def trng_collect_random (t : TrngState) (regs : Nat → Nat) (dstNull : Bool)
    (len : Nat) (ins : Nat → BurstIn) : CollectRes :=
  collectGo ins (len / TRNG_BURST_SIZE) dstNull t
    (trng_clrset32 regs TRNG_CTRL TRNG_CTRL_PRNGSTART_MASK
      TRNG_CTRL_PRNGSTART_MASK)
    0 (len / TRNG_BURST_SIZE)

/-- Adjacent duplicate in a list of bursts: some burst equals the one
immediately before it. -/
def hasAdjDup : List (List Nat) → Bool
  | a :: b :: r => (a == b) || hasAdjDup (b :: r)
  | _ => false

theorem wordLoop_fst (bcnt : Nat) (w : Nat → Nat) (old : List Nat) :
    (wordLoop bcnt w old 0 4).1 = [w 0, w 1, w 2, w 3] := by
  simp [wordLoop]

theorem wordLoop_match_iff (bcnt : Nat) (w : Nat → Nat)
    (hb : 0 < bcnt) :
    ∀ (k wcnt : Nat) (old : List Nat), old.length = k →
      ((wordLoop bcnt w old wcnt k).2.1 = true
        ↔ old = (wordLoop bcnt w old wcnt k).1) := by
  have hb2 : decide (bcnt > 0) = true := decide_eq_true hb
  intro k
  induction k with
  | zero =>
    intro wcnt old hl
    rw [List.length_eq_zero] at hl
    subst hl
    simp [wordLoop]
  | succ n ih =>
    intro wcnt old hl
    rcases old with _ | ⟨a, old⟩
    · simp at hl
    · rw [wordLoop]
      simp only [List.headD_cons, List.tail_cons, hb2, Bool.true_and,
        Bool.and_eq_true, Bool.not_eq_true', decide_eq_false_iff_not,
        not_not, List.cons.injEq]
      rw [ih (wcnt + 1) old (by simpa using hl)]

theorem collectGo_dup_catastrophic (ins : Nat → BurstIn) (bursts : Nat)
    (dstNull : Bool) (hb2 : 1 < bursts) :
    ∀ (remaining : Nat) (t : TrngState) (regs : Nat → Nat) (bcnt : Nat),
      0 < bcnt → t.buf.length = 4 →
      hasAdjDup (t.buf ::
        (collectGo ins bursts dstNull t regs bcnt remaining).trace) = true →
      (collectGo ins bursts dstNull t regs bcnt remaining).ok = false
      ∧ (collectGo ins bursts dstNull t regs bcnt remaining).t.status
          = TrngStatus.catastrophic := by
  intro remaining
  induction remaining with
  | zero =>
    intro t regs bcnt _ _ hdup
    simp [collectGo, hasAdjDup] at hdup
  | succ n ih =>
    intro t regs bcnt hbc hbuf hdup
    rw [collectGo] at hdup ⊢
    by_cases h1 : trng_wait_for_event TRNG_STATUS_QCNT_MASK
        (TRNG_MAX_QCNT <<< TRNG_STATUS_QCNT_SHIFT) (ins bcnt).poll
        (ins bcnt).fuel = some true
    · simp only [h1, ne_eq, not_true_eq_false, if_false] at hdup ⊢
      by_cases h2 : t.usr_cfg.mode ≠ TrngMode.ptrng
          ∧ (ins bcnt).status &&& TRNG_STATUS_DTF_MASK ≠ 0
      · simp only [h2, if_true] at hdup
        simp [hasAdjDup] at hdup
      · simp only [h2, if_false] at hdup ⊢
        by_cases h3 : bursts > 1 ∧ bcnt > 0
            ∧ (wordLoop bcnt (ins bcnt).words t.buf 0
                (TRNG_BURST_SIZE_BITS / TRNG_REG_SIZE)).2.1 = true
        · simp only [h3, if_true]
          exact ⟨rfl, rfl⟩
        · simp only [h3, if_false] at hdup ⊢
          rw [hasAdjDup] at hdup
          rcases Bool.or_eq_true_iff.mp hdup with heq | hrest
          · exfalso
            apply h3
            refine ⟨hb2, hbc, ?_⟩
            exact (wordLoop_match_iff bcnt (ins bcnt).words hbc
              (TRNG_BURST_SIZE_BITS / TRNG_REG_SIZE) 0 t.buf
              (by simpa [TRNG_BURST_SIZE_BITS, TRNG_REG_SIZE] using hbuf)).mpr
              (eq_of_beq heq)
          · refine ih _ regs (bcnt + 1) (by omega) ?_ ?_
            · simp [TRNG_BURST_SIZE_BITS, TRNG_REG_SIZE, wordLoop_fst]
            · simpa using hrest
    · simp only [h1, ne_eq, not_false_eq_true, if_true] at hdup
      simp [hasAdjDup] at hdup

/-- C4: during a `trng_collect_random` call of more than one burst, if
any burst after the first reads the same four 32-bit CORE_OUTPUT words
as the immediately preceding burst, the instance status is set to
CATASTROPHIC and the call returns an error. -/
theorem trng_collect_random_dup_catastrophic (t : TrngState)
    (regs : Nat → Nat) (dstNull : Bool) (len : Nat) (ins : Nat → BurstIn)
    (hb : 1 < len / TRNG_BURST_SIZE)
    (hdup : hasAdjDup (trng_collect_random t regs dstNull len ins).trace
      = true) :
    (trng_collect_random t regs dstNull len ins).ok = false
    ∧ (trng_collect_random t regs dstNull len ins).t.status
        = TrngStatus.catastrophic := by
  obtain ⟨n, hn⟩ : ∃ n, len / TRNG_BURST_SIZE = n + 1 :=
    ⟨len / TRNG_BURST_SIZE - 1, by omega⟩
  rw [trng_collect_random, hn] at hdup ⊢
  rw [collectGo] at hdup ⊢
  by_cases h1 : trng_wait_for_event TRNG_STATUS_QCNT_MASK
      (TRNG_MAX_QCNT <<< TRNG_STATUS_QCNT_SHIFT) (ins 0).poll
      (ins 0).fuel = some true
  · simp only [h1, ne_eq, not_true_eq_false, if_false] at hdup ⊢
    by_cases h2 : t.usr_cfg.mode ≠ TrngMode.ptrng
        ∧ (ins 0).status &&& TRNG_STATUS_DTF_MASK ≠ 0
    · simp only [h2, if_true] at hdup
      simp [hasAdjDup] at hdup
    · simp only [h2, if_false] at hdup ⊢
      have h3 : ¬ (n + 1 > 1 ∧ 0 > 0
          ∧ (wordLoop 0 (ins 0).words t.buf 0
              (TRNG_BURST_SIZE_BITS / TRNG_REG_SIZE)).2.1 = true) := by
        rintro ⟨-, h, -⟩; omega
      simp only [h3, if_false] at hdup ⊢
      refine collectGo_dup_catastrophic ins _ dstNull (by omega) n _ _ 1
        (by omega) ?_ ?_
      · simp [TRNG_BURST_SIZE_BITS, TRNG_REG_SIZE, wordLoop_fst]
      · simpa using hdup
  · simp only [h1, ne_eq, not_false_eq_true, if_true] at hdup
    simp [hasAdjDup] at hdup

/-- Oracle whose bursts always succeed and always return the same four
CORE_OUTPUT words. -/
def dupBurstIns : Nat → BurstIn :=
  fun _ => ⟨⟨fun _ => false, fun _ => 0x800⟩, 3, 0, fun _ => 7⟩

/-- Witness for C4: a 32-byte collect whose two bursts read identical
words returns an error with status CATASTROPHIC. -/
theorem trng_collect_random_dup_catastrophic_witness :
    (trng_collect_random (initTrng TrngVersion.v1) (fun _ => 0) false 32
      dupBurstIns).ok = false
    ∧ (trng_collect_random (initTrng TrngVersion.v1) (fun _ => 0) false 32
        dupBurstIns).t.status = TrngStatus.catastrophic :=
  trng_collect_random_dup_catastrophic _ _ _ _ _ (by decide) (by rfl)

/-! ## Reseed, instantiate, generate, release (V1 build)

The engine operations of the build without `CFG_VERSAL_RNG_DRV_V2` —
the build containing the claims' cited code.  Oracle records carry the
hardware inputs each operation may consume: per-burst inputs for
entropy collection, the DONE poll and the STATUS value read for the
CERTF check. -/

/-- Oracle input of one `trng_reseed_internal` call. -/
structure ReseedIn where
  bursts : Nat → BurstIn
  donePoll : PollInput
  doneFuel : Nat
  certf : Nat

/-- Oracle input of one `trng_generate` call: inputs for the up to two
implicit reseeds, the burst inputs of the generate collection, and the
previous contents of the caller's output buffer (read by the DF `RAND`
pass at offsets 32..47). -/
structure GenIn where
  rs1 : ReseedIn
  rs2 : ReseedIn
  bursts : Nat → BurstIn
  callerPrev : List Nat

/-- State after the `error:` label of the engine functions that set
`trng->status = TRNG_ERROR`. -/
def errT (t : TrngState) : TrngState := { t with status := TrngStatus.error }

/-- Machine after the `error:` label. -/
def errM (m : Mach) : Mach := { m with t := errT m.t }

/-- Second control register (V2 cutoff configuration). -/
def TRNG_CTRL_2 : Nat := 0x0C

/-- RCTCUTOFF field mask of CTRL_2 (bits 8..16). -/
def TRNG_CTRL_2_RCTCUTOFF_MASK : Nat := 0x1FF00

/-- RCTCUTOFF default. -/
def TRNG_CTRL_2_RCTCUTOFF_DEFVAL : Nat := 0x21

/-- DIT field mask of CTRL_2 (bits 0..4). -/
def TRNG_CTRL_2_DIT_MASK : Nat := 0x1F

/-- DIT default. -/
def TRNG_CTRL_2_DIT_DEFVAL : Nat := 0xC

/-- Third control register (V2 DLEN and APTCUTOFF). -/
def TRNG_CTRL_3 : Nat := 0x10

/-- APTCUTOFF field mask of CTRL_3 (bits 8..17). -/
def TRNG_CTRL_3_APTCUTOFF_MASK : Nat := 0x3FF00

/-- APTCUTOFF default. -/
def TRNG_CTRL_3_APTCUTOFF_DEFVAL : Nat := 0x264

/-- Cutoff and DIT defaults written by `trng_instantiate` on a V2 device
in PTRNG or HRNG mode. -/
def v2CutoffRegs (regs : Nat → Nat) : Nat → Nat :=
  trng_clrset32
    (trng_clrset32
      (trng_clrset32 regs TRNG_CTRL_3 TRNG_CTRL_3_APTCUTOFF_MASK
        (TRNG_CTRL_3_APTCUTOFF_DEFVAL <<< 8))
      TRNG_CTRL_2 TRNG_CTRL_2_RCTCUTOFF_MASK
      (TRNG_CTRL_2_RCTCUTOFF_DEFVAL <<< 8))
    TRNG_CTRL_2 TRNG_CTRL_2_DIT_MASK TRNG_CTRL_2_DIT_DEFVAL

/-- Model of `trng_reseed_internal_nodf` (V1 body): HRNG collects 48
entropy bytes and checks the seed pattern, DRNG uses the caller seed;
the seed is loaded in parallel into the EXT_SEED registers and the
optional personalization string into the PER_STRING registers. -/
def trng_reseed_internal_nodf (t : TrngState) (regs : Nat → Nat)
    (eseed str : Option (List Nat)) (rin : ReseedIn) :
    TrngState × (Nat → Nat) × TeeResult :=
  match t.usr_cfg.mode with
  | TrngMode.hrng =>
    let regs := trng_write32 regs TRNG_OSC_EN TRNG_OSC_EN_VAL_MASK
    let regs := trng_soft_reset regs
    let regs := trng_write32 regs TRNG_CTRL
      (TRNG_CTRL_EUMODE_MASK ||| TRNG_CTRL_TRSSEN_MASK)
    let c := trng_collect_random t regs false TRNG_SEED_LEN rin.bursts
    if c.ok = false then (c.t, c.regs, TeeResult.errorGeneric)
    else if trng_check_seed c.out TRNG_SEED_LEN = false then
      (c.t, c.regs, TeeResult.errorGeneric)
    else
      let regs := trng_write32_range c.regs TRNG_EXT_SEED_0 TRNG_SEED_REGS
        (some c.out)
      let regs := match str with
        | some s =>
          trng_write32_range regs TRNG_PER_STRING_0 TRNG_PERS_STR_REGS (some s)
        | none => regs
      (c.t, regs, TeeResult.success)
  | TrngMode.drng =>
    let regs := trng_write32_range regs TRNG_EXT_SEED_0 TRNG_SEED_REGS eseed
    let regs := match str with
      | some s =>
        trng_write32_range regs TRNG_PER_STRING_0 TRNG_PERS_STR_REGS (some s)
      | none => regs
    (t, regs, TeeResult.success)
  | TrngMode.ptrng =>
    let regs := trng_write32_range regs TRNG_EXT_SEED_0 TRNG_SEED_REGS none
    let regs := match str with
      | some s =>
        trng_write32_range regs TRNG_PER_STRING_0 TRNG_PERS_STR_REGS (some s)
      | none => regs
    (t, regs, TeeResult.success)

/-- Tail of `trng_reseed_internal_df`: run the DF with the SEED flag
(the `dfout` pointer aliases the instance buffer) and load the 48-byte
DF output in parallel into the EXT_SEED registers. -/
def reseedDfTail (t : TrngState) (regs : Nat → Nat)
    (str : Option (List Nat)) :
    Option (TrngState × (Nat → Nat) × TeeResult) :=
  match trng_df_algorithm t.dfin t.len t.dfout [] true DF_SEED str with
  | none => none
  | some r =>
    some ({ t with dfin := r.dfin, dfout := r.dfout },
      trng_write32_range regs TRNG_EXT_SEED_0 TRNG_SEED_REGS (some r.dfout),
      TeeResult.success)

/-- Model of `trng_reseed_internal_df`: zero the DF input, fill its
entropy field from the hardware (HRNG, with the seed-pattern check) or
from the caller seed (DRNG), then run the DF and load its output. -/
def trng_reseed_internal_df (t : TrngState) (regs : Nat → Nat)
    (eseed str : Option (List Nat)) (rin : ReseedIn) :
    Option (TrngState × (Nat → Nat) × TeeResult) :=
  let t0 := { t with dfin := List.replicate DFIN_SIZE 0 }
  match t0.usr_cfg.mode with
  | TrngMode.hrng =>
    let regs := trng_write32 regs TRNG_OSC_EN TRNG_OSC_EN_VAL_MASK
    let regs := trng_soft_reset regs
    let regs := trng_write32 regs TRNG_CTRL
      (TRNG_CTRL_EUMODE_MASK ||| TRNG_CTRL_TRSSEN_MASK)
    let c := trng_collect_random t0 regs false t0.len rin.bursts
    let t1 := { c.t with dfin := writeSlice c.t.dfin DFIN_ENTROPY_OFF c.out }
    if c.ok = false then some (t1, c.regs, TeeResult.errorGeneric)
    else if trng_check_seed (readSlice t1.dfin DFIN_ENTROPY_OFF t0.len) t0.len
        = false then
      some (t1, c.regs, TeeResult.errorGeneric)
    else reseedDfTail t1 c.regs str
  | TrngMode.drng =>
    let e := takeD t0.len (eseed.getD [])
    let t1 := { t0 with dfin := writeSlice t0.dfin DFIN_ENTROPY_OFF e }
    reseedDfTail t1 regs str
  | TrngMode.ptrng => reseedDfTail t0 regs str

/-- Dispatch of `trng_reseed_internal`: the no-DF body when
`df_disable` is set or the device is V2, the DF body otherwise. -/
def reseedDispatch (t0 : TrngState) (regs : Nat → Nat)
    (eseed str : Option (List Nat)) (rin : ReseedIn) :
    Option (TrngState × (Nat → Nat) × TeeResult) :=
  if t0.usr_cfg.df_disable ∨ t0.version = TrngVersion.v2 then
    some (trng_reseed_internal_nodf t0 regs eseed str rin)
  else trng_reseed_internal_df t0 regs eseed str rin

/-- Model of `trng_reseed_internal` (V1 build): zero the per-seed
statistics, set the working seed length, dispatch to the no-DF or DF
body, then start the reseed, poll DONE, and check CERTF.  Every failure
sets status ERROR. -/
def trng_reseed_internal (t : TrngState) (regs : Nat → Nat)
    (eseed str : Option (List Nat)) (mul : Nat) (rin : ReseedIn) :
    Option (TrngState × (Nat → Nat) × TeeResult) :=
  let t0 := { t with
    stats := { t.stats with bytes_reseed := 0, elapsed_seed_life := 0 }
    len := if t.usr_cfg.df_disable then TRNG_SEED_LEN
      else (mul + 1) * BYTES_PER_BLOCK }
  match reseedDispatch t0 regs eseed str rin with
  | none => none
  | some (t1, regs1, r1) =>
    if r1 = TeeResult.errorGeneric then
      some (errT t1, regs1, TeeResult.errorGeneric)
    else
      let regs2 := trng_write32 regs1 TRNG_CTRL
        (PRNGMODE_RESEED ||| TRNG_CTRL_PRNGXS_MASK)
      let regs3 := trng_clrset32 regs2 TRNG_CTRL TRNG_CTRL_PRNGSTART_MASK
        TRNG_CTRL_PRNGSTART_MASK
      if trng_wait_for_event TRNG_STATUS_DONE_MASK TRNG_STATUS_DONE_MASK
          rin.donePoll rin.doneFuel ≠ some true then
        some (errT t1, regs3, TeeResult.errorGeneric)
      else if rin.certf &&& TRNG_STATUS_CERTF_MASK = TRNG_STATUS_CERTF_MASK
          then
        some (errT t1, regs3, TeeResult.errorGeneric)
      else
        some (t1,
          trng_clrset32 regs3 TRNG_CTRL TRNG_CTRL_PRNGSTART_MASK 0,
          TeeResult.success)

/-- Model of `trng_instantiate`: validate the configuration (the checks
before the `memcpy`; the mode-domain check of the C code cannot fail
over the mode inductive), copy it, reset the core, write the V2 cutoff
defaults when applicable and reseed unless in PTRNG mode. -/
def trng_instantiate (m : Mach) (cfg : TrngUsrCfg) (rin : ReseedIn) :
    Option (Mach × TeeResult) :=
  if m.t.status ≠ TrngStatus.uninitialized then
    some (errM m, TeeResult.errorGeneric)
  else if cfg.mode ≠ TrngMode.ptrng ∧ cfg.seed_life = 0 then
    some (errM m, TeeResult.errorGeneric)
  else if ¬ cfg.iseed_en ∧ cfg.mode = TrngMode.drng then
    some (errM m, TeeResult.errorGeneric)
  else if cfg.iseed_en ∧ cfg.mode = TrngMode.hrng then
    some (errM m, TeeResult.errorGeneric)
  else if ¬ cfg.df_disable ∧ (cfg.dfmul < TRNG_MIN_DFLENMULT
      ∨ cfg.dfmul > TRNG_MAX_DFLENMULT) then
    some (errM m, TeeResult.errorGeneric)
  else if cfg.df_disable ∧ cfg.dfmul ≠ 0 then
    some (errM m, TeeResult.errorGeneric)
  else if cfg.mode = TrngMode.ptrng ∧ (cfg.iseed_en ∨ cfg.pstr_en
      ∨ cfg.predict_en ∨ cfg.seed_life ≠ 0) then
    some (errM m, TeeResult.errorGeneric)
  else
    let t := { m.t with usr_cfg := cfg }
    let regs := trng_reset m.regs
    let seed := if t.usr_cfg.iseed_en then some t.usr_cfg.init_seed else none
    let pers := if t.usr_cfg.pstr_en then some t.usr_cfg.pstr else none
    let regs := if t.version = TrngVersion.v2
        ∧ (cfg.mode = TrngMode.ptrng ∨ cfg.mode = TrngMode.hrng) then
      v2CutoffRegs regs else regs
    if t.usr_cfg.mode ≠ TrngMode.ptrng then
      match trng_reseed_internal t regs seed pers t.usr_cfg.dfmul rin with
      | none => none
      | some (t1, regs1, r) =>
        if r = TeeResult.errorGeneric then
          some (⟨errT t1, regs1⟩, TeeResult.errorGeneric)
        else some (⟨{ t1 with status := TrngStatus.healthy }, regs1⟩,
          TeeResult.success)
    else some (⟨{ t with status := TrngStatus.healthy }, regs⟩,
      TeeResult.success)

/-- Model of `trng_reseed`: DRNG-only with a caller seed or HRNG with a
null seed; rejects a caller seed equal to the stored initial seed over
the current working length; then delegates to `trng_reseed_internal`
with a null personalization string. -/
def trng_reseed (m : Mach) (eseed : Option (List Nat)) (mul : Nat)
    (rin : ReseedIn) : Option (Mach × TeeResult) :=
  if m.t.status ≠ TrngStatus.healthy then some (errM m, TeeResult.errorGeneric)
  else if m.t.usr_cfg.mode ≠ TrngMode.drng
      ∧ m.t.usr_cfg.mode ≠ TrngMode.hrng then
    some (errM m, TeeResult.errorGeneric)
  else if m.t.usr_cfg.mode = TrngMode.drng ∧ eseed = none then
    some (errM m, TeeResult.errorGeneric)
  else if m.t.usr_cfg.mode ≠ TrngMode.drng ∧ eseed ≠ none then
    some (errM m, TeeResult.errorGeneric)
  else if ¬ m.t.usr_cfg.df_disable ∧ (mul < TRNG_MIN_DFLENMULT
      ∨ mul > TRNG_MAX_DFLENMULT) then
    some (errM m, TeeResult.errorGeneric)
  else if m.t.usr_cfg.df_disable ∧ mul ≠ 0 then
    some (errM m, TeeResult.errorGeneric)
  else if (match eseed with
      | some s => decide (takeD m.t.len s
          = takeD m.t.len m.t.usr_cfg.init_seed)
      | none => false) then
    some (errM m, TeeResult.errorGeneric)
  else
    match trng_reseed_internal m.t m.regs eseed none mul rin with
    | none => none
    | some (t1, regs1, r) =>
      if r = TeeResult.errorGeneric then
        some (⟨errT t1, regs1⟩, TeeResult.errorGeneric)
      else some (⟨t1, regs1⟩, TeeResult.success)

/-- Result of a `trng_generate` call: the machine, the result code, the
bytes stored into the caller buffer and the `dfmul` arguments of the
`trng_reseed_internal` calls made (ghost trace). -/
structure GenRes where
  m : Mach
  res : TeeResult
  out : List Nat
  reseedMuls : List Nat

/-- Error exit of `trng_generate`: status becomes ERROR unless it is
already CATASTROPHIC. -/
def genFail (m : Mach) (muls : List Nat) : GenRes :=
  if m.t.status = TrngStatus.catastrophic then
    ⟨m, TeeResult.errorGeneric, [], muls⟩
  else ⟨errM m, TeeResult.errorGeneric, [], muls⟩

/-- Conditional implicit reseed inside `trng_generate`
(`trng_reseed_internal(trng, NULL, NULL, 0)`). -/
def reseedStep (m : Mach) (cond : Bool) (rin : ReseedIn) :
    Option (Mach × TeeResult × List Nat) :=
  if cond then
    match trng_reseed_internal m.t m.regs none none 0 rin with
    | none => none
    | some (t1, regs1, r) => some (⟨t1, regs1⟩, r, [0])
  else some (m, TeeResult.success, [])

/-- Common tail of `trng_generate`: collect `len` bytes (into the DF
input entropy field on the PTRNG-with-DF path, into the caller buffer
otherwise), update the statistics, and on the PTRNG-with-DF path run
the DF with the `RAND` flag into the caller buffer. -/
def genTail (m : Mach) (muls : List Nat) (len : Nat) (dstIsDfin : Bool)
    (gin : GenIn) : Option GenRes :=
  let c := trng_collect_random m.t m.regs false len gin.bursts
  let newDfin := if dstIsDfin then
      writeSlice c.t.dfin DFIN_ENTROPY_OFF c.out
    else c.t.dfin
  let t1 : TrngState := { c.t with dfin := newDfin }
  if c.ok = false then some (genFail ⟨t1, c.regs⟩ muls)
  else
    let st : TrngStats :=
      { bytes := t1.stats.bytes + len
        bytes_reseed := t1.stats.bytes_reseed + len
        elapsed_seed_life := t1.stats.elapsed_seed_life + 1 }
    let t2 := { t1 with stats := st }
    if ¬ t2.usr_cfg.df_disable ∧ t2.usr_cfg.mode = TrngMode.ptrng then
      match trng_df_algorithm t2.dfin t2.len t2.dfout
          (takeD TRNG_SEED_LEN gin.callerPrev) false DF_RAND none with
      | none => none
      | some r =>
        let t3 : TrngState := { t2 with dfin := r.dfin, dfout := r.dfout }
        some ⟨⟨t3, c.regs⟩, TeeResult.success, r.out, muls⟩
    else some ⟨⟨t2, c.regs⟩, TeeResult.success,
      (if dstIsDfin then [] else c.out), muls⟩

/-- HRNG branch of `trng_generate`: implicit reseed when the seed life
is exhausted, forced reseed for prediction resistance, then generate. -/
def genHrng (m : Mach) (predict : Bool) (gin : GenIn) : Option GenRes :=
  match reseedStep m
      (decide (m.t.stats.elapsed_seed_life ≥ m.t.usr_cfg.seed_life))
      gin.rs1 with
  | none => none
  | some (m1, r1, muls1) =>
    if r1 = TeeResult.errorGeneric then some (genFail m1 muls1)
    else
      match reseedStep m1
          (predict && decide (m1.t.stats.elapsed_seed_life > 0)) gin.rs2 with
      | none => none
      | some (m2, r2, muls2) =>
        if r2 = TeeResult.errorGeneric then some (genFail m2 (muls1 ++ muls2))
        else
          genTail ⟨m2.t, trng_write32 m2.regs TRNG_CTRL PRNGMODE_GEN⟩
            (muls1 ++ muls2) TRNG_SEC_STRENGTH_LEN false gin

/-- DRNG branch of `trng_generate`: exceeding the seed life or asking
for prediction resistance mid-seed-life is an error. -/
def genDrng (m : Mach) (predict : Bool) (gin : GenIn) : Option GenRes :=
  if m.t.stats.elapsed_seed_life > m.t.usr_cfg.seed_life then
    some (genFail m [])
  else if predict ∧ m.t.stats.elapsed_seed_life > 0 then some (genFail m [])
  else genTail ⟨m.t, trng_write32 m.regs TRNG_CTRL PRNGMODE_GEN⟩ []
    TRNG_SEC_STRENGTH_LEN false gin

/-- PTRNG branch of `trng_generate`: with the DF enabled, collect
`(dfmul + 1) * 16` bytes into the DF input instead of the caller
buffer; enable the oscillators and the entropy unit. -/
def genPtrng (m : Mach) (gin : GenIn) : Option GenRes :=
  if ¬ m.t.usr_cfg.df_disable then
    let len := (m.t.usr_cfg.dfmul + 1) * BYTES_PER_BLOCK
    let t := { m.t with dfin := List.replicate DFIN_SIZE 0, len := len }
    let regs := trng_write32 m.regs TRNG_OSC_EN TRNG_OSC_EN_VAL_MASK
    let regs := trng_soft_reset regs
    let regs := trng_write32 regs TRNG_CTRL
      (TRNG_CTRL_EUMODE_MASK ||| TRNG_CTRL_TRSSEN_MASK)
    genTail ⟨t, regs⟩ [] len true gin
  else
    let regs := trng_write32 m.regs TRNG_OSC_EN TRNG_OSC_EN_VAL_MASK
    let regs := trng_soft_reset regs
    let regs := trng_write32 regs TRNG_CTRL
      (TRNG_CTRL_EUMODE_MASK ||| TRNG_CTRL_TRSSEN_MASK)
    genTail ⟨m.t, regs⟩ [] TRNG_SEC_STRENGTH_LEN false gin

/-- Model of `trng_generate`. -/
def trng_generate (m : Mach) (bufNull : Bool) (blen : Nat) (predict : Bool)
    (gin : GenIn) : Option GenRes :=
  if bufNull then some (genFail m [])
  else if blen < TRNG_SEC_STRENGTH_LEN then some (genFail m [])
  else if m.t.status ≠ TrngStatus.healthy then some (genFail m [])
  else if m.t.usr_cfg.mode = TrngMode.ptrng ∧ predict then some (genFail m [])
  else if ¬ m.t.usr_cfg.predict_en ∧ predict then some (genFail m [])
  else
    match m.t.usr_cfg.mode with
    | TrngMode.hrng => genHrng m predict gin
    | TrngMode.drng => genDrng m predict gin
    | TrngMode.ptrng => genPtrng m gin

/-- Model of `trng_release`: zero the seed and perstring registers, hold
reset, wipe `usr_cfg`, `buf` and `dfout`, and return to UNINITIALIZED.
The DF input buffer `dfin` is not touched by the C function. -/
def trng_release (m : Mach) : Mach × TeeResult :=
  if m.t.status = TrngStatus.uninitialized then
    (errM m, TeeResult.errorGeneric)
  else
    let regs := trng_write32_range m.regs TRNG_EXT_SEED_0 TRNG_SEED_REGS none
    let regs := trng_write32_range regs TRNG_PER_STRING_0 TRNG_PERS_STR_REGS
      none
    let regs := trng_hold_reset regs
    let t2 : TrngState :=
      { m.t with
          usr_cfg := zeroUsrCfg
          buf := List.replicate 4 0
          dfout := List.replicate TRNG_SEED_LEN 0
          status := TrngStatus.uninitialized }
    (⟨t2, regs⟩, TeeResult.success)

/-- Loop of `versal_trng_get_random_bytes`: one 32-byte generate per
iteration; any failure is a `panic()` (`none`).  Returns the machine,
the bytes written to the caller buffer and the number of
`trng_generate` calls made. -/
def getRandomLoop (gins : Nat → GenIn) :
    Mach → Nat → Nat → List Nat → Nat → Option (Mach × List Nat × Nat)
  | m, _, 0, acc, calls => some (m, acc, calls)
  | m, i, k + 1, acc, calls =>
    match trng_generate m false TRNG_SEC_STRENGTH_LEN false (gins i) with
    | none => none
    | some g =>
      if g.res = TeeResult.errorGeneric then none
      else getRandomLoop gins g.m (i + 1) k (acc ++ g.out) (calls + 1)

/-- Model of `versal_trng_get_random_bytes`: `len / 32` full blocks into
the caller buffer, then one scratch block for a non-zero tail. -/
def versal_trng_get_random_bytes (m : Mach) (len : Nat)
    (gins : Nat → GenIn) : Option (Mach × List Nat × Nat) :=
  match getRandomLoop gins m 0 (len / TRNG_SEC_STRENGTH_LEN) [] 0 with
  | none => none
  | some (m1, acc, calls) =>
    if len % TRNG_SEC_STRENGTH_LEN ≠ 0 then
      match trng_generate m1 false TRNG_SEC_STRENGTH_LEN false
          (gins (len / TRNG_SEC_STRENGTH_LEN)) with
      | none => none
      | some g =>
        if g.res = TeeResult.errorGeneric then none
        else some (g.m, acc ++ g.out.take (len % TRNG_SEC_STRENGTH_LEN),
          calls + 1)
    else some (m1, acc, calls)

/-- C10: `versal_trng_get_random_bytes` with `len = 0` performs no
`trng_generate` call (call count 0), writes nothing to the caller
buffer, and returns `TEE_SUCCESS`, regardless of the instance state and
the hardware behaviour. -/
theorem versal_trng_get_random_bytes_len_zero (m : Mach)
    (gins : Nat → GenIn) :
    versal_trng_get_random_bytes m 0 gins = some (m, [], 0) := rfl

/-! ## State-preservation lemmas

What the operations leave untouched: burst collection only changes
`buf` and `status`; the reseed paths zero the per-seed statistics and
set `len` but never touch the configuration. -/

theorem collectGo_state (ins : Nat → BurstIn) (bursts : Nat)
    (dstNull : Bool) :
    ∀ (remaining : Nat) (t : TrngState) (regs : Nat → Nat) (bcnt : Nat),
      (collectGo ins bursts dstNull t regs bcnt remaining).t.usr_cfg
          = t.usr_cfg
      ∧ (collectGo ins bursts dstNull t regs bcnt remaining).t.stats = t.stats
      ∧ (collectGo ins bursts dstNull t regs bcnt remaining).t.len = t.len
      ∧ (collectGo ins bursts dstNull t regs bcnt remaining).t.version
          = t.version
      ∧ (collectGo ins bursts dstNull t regs bcnt remaining).t.dfin = t.dfin
      ∧ (collectGo ins bursts dstNull t regs bcnt remaining).t.dfout
          = t.dfout := by
  intro remaining
  induction remaining with
  | zero => intro t regs bcnt; simp [collectGo]
  | succ n ih =>
    intro t regs bcnt
    rw [collectGo]
    split
    · simp
    · split
      · simp
      · split
        · dsimp only
          split
          · simp
          · simpa using ih _ regs (bcnt + 1)
        · dsimp only
          split
          · simp
          · simpa using ih _ regs (bcnt + 1)

theorem trng_collect_random_state (t : TrngState) (regs : Nat → Nat)
    (dstNull : Bool) (len : Nat) (ins : Nat → BurstIn) :
    (trng_collect_random t regs dstNull len ins).t.usr_cfg = t.usr_cfg
    ∧ (trng_collect_random t regs dstNull len ins).t.stats = t.stats
    ∧ (trng_collect_random t regs dstNull len ins).t.len = t.len
    ∧ (trng_collect_random t regs dstNull len ins).t.version = t.version
    ∧ (trng_collect_random t regs dstNull len ins).t.dfin = t.dfin
    ∧ (trng_collect_random t regs dstNull len ins).t.dfout = t.dfout := by
  rw [trng_collect_random]
  exact collectGo_state ins _ dstNull _ t _ 0

theorem trng_reseed_internal_nodf_state (t : TrngState) (regs : Nat → Nat)
    (eseed str : Option (List Nat)) (rin : ReseedIn) :
    (trng_reseed_internal_nodf t regs eseed str rin).1.usr_cfg = t.usr_cfg
    ∧ (trng_reseed_internal_nodf t regs eseed str rin).1.stats = t.stats
    ∧ (trng_reseed_internal_nodf t regs eseed str rin).1.len = t.len := by
  rw [trng_reseed_internal_nodf.eq_def]
  split
  · dsimp only
    have h := trng_collect_random_state t
      (trng_write32
        (trng_soft_reset (trng_write32 regs TRNG_OSC_EN TRNG_OSC_EN_VAL_MASK))
        TRNG_CTRL (TRNG_CTRL_EUMODE_MASK ||| TRNG_CTRL_TRSSEN_MASK))
      false TRNG_SEED_LEN rin.bursts
    split
    · exact ⟨h.1, h.2.1, h.2.2.1⟩
    · split
      · exact ⟨h.1, h.2.1, h.2.2.1⟩
      · split
        · exact ⟨h.1, h.2.1, h.2.2.1⟩
        · exact ⟨h.1, h.2.1, h.2.2.1⟩
  · dsimp only
    exact ⟨rfl, rfl, rfl⟩
  · dsimp only
    exact ⟨rfl, rfl, rfl⟩

theorem reseedDfTail_state {t : TrngState} {regs : Nat → Nat}
    {str : Option (List Nat)} {t1 : TrngState} {regs1 : Nat → Nat}
    {r : TeeResult} (h : reseedDfTail t regs str = some (t1, regs1, r)) :
    t1.usr_cfg = t.usr_cfg ∧ t1.stats = t.stats ∧ t1.len = t.len
    ∧ r = TeeResult.success := by
  rw [reseedDfTail.eq_def] at h
  split at h
  · exact absurd h (by simp)
  · simp only [Option.some_inj, Prod.mk.injEq] at h
    obtain ⟨h1, -, h3⟩ := h
    subst h1
    exact ⟨rfl, rfl, rfl, h3.symm⟩

theorem trng_reseed_internal_df_state {t : TrngState} {regs : Nat → Nat}
    {eseed str : Option (List Nat)} {rin : ReseedIn} {t1 : TrngState}
    {regs1 : Nat → Nat} {r : TeeResult}
    (h : trng_reseed_internal_df t regs eseed str rin
      = some (t1, regs1, r)) :
    t1.usr_cfg = t.usr_cfg ∧ t1.stats = t.stats ∧ t1.len = t.len := by
  rw [trng_reseed_internal_df.eq_def] at h
  dsimp only at h
  split at h
  · rename_i heq
    have hc := trng_collect_random_state
      { t with dfin := List.replicate DFIN_SIZE 0 }
      (trng_write32
        (trng_soft_reset (trng_write32 regs TRNG_OSC_EN TRNG_OSC_EN_VAL_MASK))
        TRNG_CTRL (TRNG_CTRL_EUMODE_MASK ||| TRNG_CTRL_TRSSEN_MASK))
      false t.len rin.bursts
    split at h
    · simp only [Option.some_inj, Prod.mk.injEq] at h
      obtain ⟨h1, -, -⟩ := h
      subst h1
      exact ⟨hc.1, hc.2.1, hc.2.2.1⟩
    · split at h
      · simp only [Option.some_inj, Prod.mk.injEq] at h
        obtain ⟨h1, -, -⟩ := h
        subst h1
        exact ⟨hc.1, hc.2.1, hc.2.2.1⟩
      · have := reseedDfTail_state h
        exact ⟨this.1.trans hc.1, this.2.1.trans hc.2.1,
          this.2.2.1.trans hc.2.2.1⟩
  · have := reseedDfTail_state h
    exact ⟨this.1, this.2.1, this.2.2.1⟩
  · have := reseedDfTail_state h
    exact ⟨this.1, this.2.1, this.2.2.1⟩

theorem reseedDispatch_state {t0 : TrngState} {regs : Nat → Nat}
    {eseed str : Option (List Nat)} {rin : ReseedIn} {t1 : TrngState}
    {regs1 : Nat → Nat} {r : TeeResult}
    (h : reseedDispatch t0 regs eseed str rin = some (t1, regs1, r)) :
    t1.usr_cfg = t0.usr_cfg ∧ t1.stats = t0.stats ∧ t1.len = t0.len := by
  rw [reseedDispatch] at h
  split at h
  · simp only [Option.some_inj] at h
    have hn := trng_reseed_internal_nodf_state t0 regs eseed str rin
    rw [h] at hn
    exact hn
  · exact trng_reseed_internal_df_state h

theorem trng_reseed_internal_state {t : TrngState} {regs : Nat → Nat}
    {eseed str : Option (List Nat)} {mul : Nat} {rin : ReseedIn}
    {t1 : TrngState} {regs1 : Nat → Nat} {r : TeeResult}
    (h : trng_reseed_internal t regs eseed str mul rin
      = some (t1, regs1, r)) :
    t1.usr_cfg = t.usr_cfg
    ∧ t1.stats.elapsed_seed_life = 0
    ∧ t1.stats.bytes_reseed = 0
    ∧ t1.stats.bytes = t.stats.bytes
    ∧ t1.len = (if t.usr_cfg.df_disable then TRNG_SEED_LEN
        else (mul + 1) * BYTES_PER_BLOCK) := by
  rw [trng_reseed_internal.eq_def] at h
  dsimp only at h
  split at h
  · exact absurd h (by simp)
  · rename_i t2 regs2 r2 heq
    have hd := reseedDispatch_state heq
    have hstep : t2.usr_cfg = t.usr_cfg ∧ t2.stats.elapsed_seed_life = 0
        ∧ t2.stats.bytes_reseed = 0 ∧ t2.stats.bytes = t.stats.bytes
        ∧ t2.len = (if t.usr_cfg.df_disable then TRNG_SEED_LEN
            else (mul + 1) * BYTES_PER_BLOCK) := by
      refine ⟨hd.1, ?_, ?_, ?_, hd.2.2⟩ <;> rw [hd.2.1]
    split at h
    · simp only [Option.some_inj, Prod.mk.injEq] at h
      obtain ⟨h1, -, -⟩ := h
      subst h1
      exact hstep
    · split at h
      · simp only [Option.some_inj, Prod.mk.injEq] at h
        obtain ⟨h1, -, -⟩ := h
        subst h1
        exact hstep
      · split at h
        · simp only [Option.some_inj, Prod.mk.injEq] at h
          obtain ⟨h1, -, -⟩ := h
          subst h1
          exact hstep
        · simp only [Option.some_inj, Prod.mk.injEq] at h
          obtain ⟨h1, -, -⟩ := h
          subst h1
          exact hstep

@[simp] theorem genFail_usr_cfg (m : Mach) (muls : List Nat) :
    (genFail m muls).m.t.usr_cfg = m.t.usr_cfg := by
  rw [genFail]; split <;> rfl

@[simp] theorem genFail_stats (m : Mach) (muls : List Nat) :
    (genFail m muls).m.t.stats = m.t.stats := by
  rw [genFail]; split <;> rfl

@[simp] theorem genFail_len (m : Mach) (muls : List Nat) :
    (genFail m muls).m.t.len = m.t.len := by
  rw [genFail]; split <;> rfl

@[simp] theorem genFail_res (m : Mach) (muls : List Nat) :
    (genFail m muls).res = TeeResult.errorGeneric := by
  rw [genFail]; split <;> rfl

@[simp] theorem genFail_muls (m : Mach) (muls : List Nat) :
    (genFail m muls).reseedMuls = muls := by
  rw [genFail]; split <;> rfl

theorem reseedStep_state {m : Mach} {cond : Bool} {rin : ReseedIn}
    {m1 : Mach} {r : TeeResult} {muls : List Nat}
    (h : reseedStep m cond rin = some (m1, r, muls)) :
    m1.t.usr_cfg = m.t.usr_cfg
    ∧ (cond = false → m1 = m ∧ muls = [] ∧ r = TeeResult.success)
    ∧ (cond = true → muls = [0] ∧ m1.t.stats.elapsed_seed_life = 0
        ∧ m1.t.stats.bytes = m.t.stats.bytes
        ∧ m1.t.len = (if m.t.usr_cfg.df_disable then TRNG_SEED_LEN
            else (0 + 1) * BYTES_PER_BLOCK)) := by
  rw [reseedStep] at h
  cases cond with
  | false =>
    simp only [Bool.false_eq_true, if_false, Option.some_inj,
      Prod.mk.injEq] at h
    obtain ⟨h1, h2, h3⟩ := h
    subst h1
    exact ⟨rfl, fun _ => ⟨rfl, h3.symm, h2.symm⟩, fun hc => by simp at hc⟩
  | true =>
    simp only [if_true] at h
    split at h
    · simp at h
    · rename_i t1 regs1 r1 heq
      simp only [Option.some_inj, Prod.mk.injEq] at h
      obtain ⟨h1, h2, h3⟩ := h
      subst h1
      subst h3
      have hs := trng_reseed_internal_state heq
      exact ⟨hs.1, fun hc => by simp at hc,
        fun _ => ⟨rfl, hs.2.1, hs.2.2.2.1, hs.2.2.2.2⟩⟩

theorem genTail_state {m : Mach} {muls : List Nat} {len : Nat}
    {dstIsDfin : Bool} {gin : GenIn} {g : GenRes}
    (h : genTail m muls len dstIsDfin gin = some g) :
    g.m.t.usr_cfg = m.t.usr_cfg
    ∧ g.m.t.len = m.t.len
    ∧ g.reseedMuls = muls
    ∧ (g.res = TeeResult.success →
        g.m.t.stats.elapsed_seed_life = m.t.stats.elapsed_seed_life + 1)
    ∧ (g.res = TeeResult.errorGeneric → g.m.t.stats = m.t.stats) := by
  have hc := trng_collect_random_state m.t m.regs false len gin.bursts
  rw [genTail] at h
  dsimp only at h
  split at h
  · simp only [Option.some_inj] at h
    subst h
    refine ⟨?_, ?_, ?_, ?_, ?_⟩
    · simpa using hc.1
    · simpa using hc.2.2.1
    · simp
    · intro hs
      simp at hs
    · intro _
      simpa using hc.2.1
  · split at h
    · split at h
      · simp at h
      · simp only [Option.some_inj] at h
        subst h
        refine ⟨hc.1, hc.2.2.1, rfl, ?_, ?_⟩
        · intro _
          simp only []
          rw [show (trng_collect_random m.t m.regs false len
            gin.bursts).t.stats = m.t.stats from hc.2.1]
        · intro hs
          simp at hs
    · simp only [Option.some_inj] at h
      subst h
      refine ⟨hc.1, hc.2.2.1, rfl, ?_, ?_⟩
      · intro _
        simp only []
        rw [show (trng_collect_random m.t m.regs false len
          gin.bursts).t.stats = m.t.stats from hc.2.1]
      · intro hs
        simp at hs

theorem trng_generate_healthy (m : Mach) (blen : Nat) (predict : Bool)
    (gin : GenIn) (hblen : ¬ blen < TRNG_SEC_STRENGTH_LEN)
    (hst : m.t.status = TrngStatus.healthy)
    (hpm : ¬ (m.t.usr_cfg.mode = TrngMode.ptrng ∧ predict = true))
    (hpe : ¬ (¬ m.t.usr_cfg.predict_en = true ∧ predict = true)) :
    trng_generate m false blen predict gin
      = match m.t.usr_cfg.mode with
        | TrngMode.hrng => genHrng m predict gin
        | TrngMode.drng => genDrng m predict gin
        | TrngMode.ptrng => genPtrng m gin := by
  rw [trng_generate]
  rw [if_neg (by simp)]
  rw [if_neg hblen]
  rw [if_neg (by simp [hst])]
  rw [if_neg hpm]
  rw [if_neg hpe]

/-- C9: a `trng_generate` call in HRNG mode whose entry triggers the
implicit seed-life reseed or the prediction-resistance reseed invokes
`trng_reseed_internal` with a `dfmul` argument of 0, so with the DF
enabled the working seed length `trng->len` becomes
`(0 + 1) * BYTES_PER_BLOCK = 16` bytes — not the configured
`(dfmul + 1) * BYTES_PER_BLOCK` bytes, since a configured DF multiplier
is at least `TRNG_MIN_DFLENMULT = 2`. -/
theorem trng_generate_hrng_implicit_reseed (m : Mach) (blen : Nat)
    (predict : Bool) (gin : GenIn) (g : GenRes)
    (hmode : m.t.usr_cfg.mode = TrngMode.hrng)
    (hst : m.t.status = TrngStatus.healthy)
    (hdf : m.t.usr_cfg.df_disable = false)
    (hpe : predict = false ∨ m.t.usr_cfg.predict_en = true)
    (hblen : TRNG_SEC_STRENGTH_LEN ≤ blen)
    (htrig : m.t.usr_cfg.seed_life ≤ m.t.stats.elapsed_seed_life
      ∨ (predict = true ∧ 0 < m.t.stats.elapsed_seed_life))
    (h : trng_generate m false blen predict gin = some g) :
    0 ∈ g.reseedMuls
    ∧ g.m.t.len = (0 + 1) * BYTES_PER_BLOCK
    ∧ (TRNG_MIN_DFLENMULT ≤ m.t.usr_cfg.dfmul →
        g.m.t.len ≠ (m.t.usr_cfg.dfmul + 1) * BYTES_PER_BLOCK) := by
  rw [trng_generate_healthy m blen predict gin (by omega) hst
    (by simp [hmode]) (by rcases hpe with hp | hp <;> simp [hp])] at h
  rw [hmode] at h
  dsimp only at h
  rw [genHrng] at h
  split at h
  · simp at h
  · rename_i m1 r1 muls1 heq1
    have hs1 := reseedStep_state heq1
    -- after a first reseed the length is 16; without one, m1 = m
    have key : ∀ (hlen1 : m1.t.len = (0 + 1) * BYTES_PER_BLOCK)
        (hmul1 : muls1 = [0]),
        0 ∈ g.reseedMuls ∧ g.m.t.len = (0 + 1) * BYTES_PER_BLOCK := by
      intro hlen1 hmul1
      subst hmul1
      split at h
      · simp only [Option.some_inj] at h
        subst h
        simp [hlen1]
      · split at h
        · simp at h
        · rename_i m2 r2 muls2 heq2
          have hs2 := reseedStep_state heq2
          have hlen2 : m2.t.len = (0 + 1) * BYTES_PER_BLOCK := by
            cases hc2 : (predict && decide (m1.t.stats.elapsed_seed_life > 0))
            · obtain ⟨he, -, -⟩ := hs2.2.1 hc2
              rw [he]; exact hlen1
            · have := (hs2.2.2 hc2).2.2.2
              rw [this, hs1.1, hdf]
              simp
          split at h
          · simp only [Option.some_inj] at h
            subst h
            simp [hlen2]
          · have hgt := genTail_state h
            refine ⟨?_, ?_⟩
            · rw [hgt.2.2.1]
              simp
            · rw [hgt.2.1]
              exact hlen2
    by_cases hc1 : m.t.usr_cfg.seed_life ≤ m.t.stats.elapsed_seed_life
    · have hc1d : decide (m.t.stats.elapsed_seed_life
          ≥ m.t.usr_cfg.seed_life) = true := decide_eq_true hc1
      rw [hc1d] at heq1
      obtain ⟨hm1, he1, -, hl1⟩ := (reseedStep_state heq1).2.2 rfl
      have hmain := key (by rw [hl1, hdf]; simp) hm1
      refine ⟨hmain.1, hmain.2, ?_⟩
      intro hmul
      rw [hmain.2]
      simp only [TRNG_MIN_DFLENMULT] at hmul
      simp only [BYTES_PER_BLOCK]
      omega
    · -- the trigger is the prediction-resistance reseed
      rcases htrig with hl | ⟨hp, hel⟩
      · exact absurd hl hc1
      · have hc1d : decide (m.t.stats.elapsed_seed_life
            ≥ m.t.usr_cfg.seed_life) = false := by
          simp only [decide_eq_false_iff_not]
          omega
        rw [hc1d] at heq1
        obtain ⟨hm1, hmul1, hr1⟩ := (reseedStep_state heq1).2.1 rfl
        rw [hm1, hmul1] at h
        rw [if_neg (by rw [hr1]; simp)] at h
        split at h
        · simp at h
        · rename_i m2 r2 muls2 heq2
          have hc2 : (predict && decide (m.t.stats.elapsed_seed_life > 0))
              = true := by
            rw [hp]
            simpa using hel
          rw [hc2] at heq2
          obtain ⟨hm2, he2, -, hl2⟩ := (reseedStep_state heq2).2.2 rfl
          have hlen2 : m2.t.len = (0 + 1) * BYTES_PER_BLOCK := by
            rw [hl2, hdf]
            simp
          have hmain : 0 ∈ g.reseedMuls
              ∧ g.m.t.len = (0 + 1) * BYTES_PER_BLOCK := by
            subst hm2
            split at h
            · simp only [Option.some_inj] at h
              subst h
              simp [hlen2]
            · have hgt := genTail_state h
              refine ⟨?_, ?_⟩
              · rw [hgt.2.2.1]
                simp
              · rw [hgt.2.1]
                exact hlen2
          refine ⟨hmain.1, hmain.2, ?_⟩
          intro hmul
          rw [hmain.2]
          simp only [TRNG_MIN_DFLENMULT] at hmul
          simp only [BYTES_PER_BLOCK]
          omega

/-- Burst oracle whose bursts always succeed with pairwise different
words (no DTF, QCNT reads 4). -/
def genBurstIns : Nat → BurstIn :=
  fun b => ⟨⟨fun _ => false, fun _ => 0x800⟩, 3, 0, fun w => 4 * b + w + 1⟩

/-- Reseed oracle whose DONE poll succeeds and whose CERTF read is 0. -/
def okReseedIn : ReseedIn := ⟨genBurstIns, ⟨fun _ => false, fun _ => 1⟩, 3, 0⟩

/-- Concrete HRNG configuration with the DF enabled (`dfmul = 7`). -/
def c9Cfg : TrngUsrCfg where
  mode := TrngMode.hrng
  seed_life := 3
  predict_en := false
  iseed_en := false
  pstr_en := false
  df_disable := false
  dfmul := 7
  init_seed := List.replicate TRNG_V2_SEED_LEN 0
  pstr := List.replicate TRNG_PERS_STR_LEN 0

/-- Concrete healthy HRNG instance whose seed life is exhausted
(`elapsed_seed_life = seed_life = 3`, working length 128 as configured
by `dfmul = 7`). -/
def c9M : Mach where
  t := { version := TrngVersion.v1, status := TrngStatus.healthy,
         usr_cfg := c9Cfg, stats := ⟨96, 96, 3⟩, len := 128,
         buf := List.replicate 4 0, dfout := List.replicate TRNG_SEED_LEN 0,
         dfin := List.replicate DFIN_SIZE 0 }
  regs := fun _ => 0

/-- Generate oracle for the witness run. -/
def c9Gin : GenIn := ⟨okReseedIn, okReseedIn, genBurstIns, []⟩

/-- Concrete generate run for the C9 witness. -/
def c9Gen : Option GenRes := trng_generate c9M false 32 false c9Gin

/-- Witness for C9: the concrete generate call succeeds, made a reseed
with `dfmul` argument 0, and left `trng->len = 16` although the
configured multiplier 7 gives `(7 + 1) * 16 = 128`. -/
theorem trng_generate_hrng_implicit_reseed_witness :
    c9Gen.isSome = true
    ∧ 0 ∈ (c9Gen.getD ⟨c9M, TeeResult.errorGeneric, [], []⟩).reseedMuls
    ∧ (c9Gen.getD ⟨c9M, TeeResult.errorGeneric, [], []⟩).m.t.len
        = (0 + 1) * BYTES_PER_BLOCK
    ∧ (c9Gen.getD ⟨c9M, TeeResult.errorGeneric, [], []⟩).m.t.len
        ≠ (c9M.t.usr_cfg.dfmul + 1) * BYTES_PER_BLOCK := by
  have hs : c9Gen.isSome = true := rfl
  have hh : c9Gen
      = some (c9Gen.getD ⟨c9M, TeeResult.errorGeneric, [], []⟩) := by
    cases hcg : c9Gen with
    | none => rw [hcg] at hs; simp at hs
    | some g => simp [hcg]
  have hthm := trng_generate_hrng_implicit_reseed c9M 32 false c9Gin _
    rfl rfl rfl (Or.inl rfl) (by decide) (Or.inl (by decide)) hh
  exact ⟨hs, hthm.1, hthm.2.1, hthm.2.2 (by decide)⟩

/-- KAT V1 external seed (48 bytes), used as a concrete initial seed. -/
def katSeed : List Nat :=
  [0x3B, 0xC3, 0xED, 0x64, 0xF4, 0x80, 0x1C, 0xC7,
   0x14, 0xCC, 0x35, 0xED, 0x57, 0x01, 0x2A, 0xE4,
   0xBC, 0xEF, 0xDE, 0xF6, 0x7C, 0x46, 0xA6, 0x34,
   0xC6, 0x79, 0xE8, 0x91, 0x5D, 0xB1, 0xDB, 0xA7,
   0x49, 0xA5, 0xBB, 0x4F, 0xED, 0x30, 0xB3, 0x7B,
   0xA9, 0x8B, 0xF5, 0x56, 0x4D, 0x40, 0x18, 0x9F]

/-- KAT V1 personalization string (48 bytes). -/
def katPers : List Nat :=
  [0xB2, 0x80, 0x7E, 0x4C, 0xD0, 0xE4, 0xE2, 0xA9,
   0x2F, 0x1F, 0x5D, 0xC1, 0xA2, 0x1F, 0x40, 0xFC,
   0x1F, 0x24, 0x5D, 0x42, 0x61, 0x80, 0xE6, 0xE9,
   0x71, 0x05, 0x17, 0x5B, 0xAF, 0x70, 0x30, 0x18,
   0xBC, 0x23, 0x18, 0x15, 0xCB, 0xB8, 0xA6, 0x3E,
   0x83, 0xB8, 0x4A, 0xFE, 0x38, 0xFC, 0x25, 0x87]

/-- Configuration of the V1 KAT: DRNG with DF (`dfmul = 2`), initial
seed and personalization string supplied. -/
def katUsrCfg : TrngUsrCfg where
  mode := TrngMode.drng
  seed_life := 5
  predict_en := false
  iseed_en := true
  pstr_en := true
  df_disable := false
  dfmul := 2
  init_seed := katSeed
  pstr := katPers

/-- Instantiate a V1 DRNG-with-DF instance with the KAT seed, then
release it. -/
def c1Run : Option (Mach × TeeResult) :=
  match trng_instantiate ⟨initTrng TrngVersion.v1, fun _ => 0⟩ katUsrCfg
      okReseedIn with
  | none => none
  | some p => some (trng_release p.1)

/-- Final machine of the instantiate-release run. -/
def c1Final : Mach :=
  (c1Run.getD (⟨initTrng TrngVersion.v1, fun _ => 0⟩,
    TeeResult.errorGeneric)).1

/-- C1: after a successful `trng_release` of an instantiated V1 DRNG
instance with DF, all 12 seed and 12 perstring registers read zero,
reset is held asserted (RESET written high and PRNGSRST set), status is
UNINITIALIZED and `usr_cfg`, `buf` and `dfout` are zeroed — but the DF
input buffer `trng->dfin` is not wiped: its entropy field still holds
the full original 48-byte initial seed, contradicting the claim that no
byte of the init seed remains in driver memory. -/
theorem trng_release_wipes_regs_but_not_dfin :
    c1Run.isSome = true
    ∧ ((List.range TRNG_SEED_REGS).all
        (fun i => c1Final.regs (TRNG_EXT_SEED_0 + TRNG_BYTES_PER_REG * i)
          == 0)) = true
    ∧ ((List.range TRNG_PERS_STR_REGS).all
        (fun i => c1Final.regs (TRNG_PER_STRING_0 + TRNG_BYTES_PER_REG * i)
          == 0)) = true
    ∧ c1Final.regs TRNG_RESET = TRNG_RESET_VAL_MASK
    ∧ c1Final.regs TRNG_CTRL &&& TRNG_CTRL_PRNGSRST_MASK
        = TRNG_CTRL_PRNGSRST_MASK
    ∧ c1Final.t.status = TrngStatus.uninitialized
    ∧ c1Final.t.usr_cfg = zeroUsrCfg
    ∧ c1Final.t.buf = List.replicate 4 0
    ∧ c1Final.t.dfout = List.replicate TRNG_SEED_LEN 0
    ∧ readSlice c1Final.t.dfin DFIN_ENTROPY_OFF TRNG_SEED_LEN = katSeed
    ∧ katSeed.headD 0 = 0x3B := by
  refine ⟨rfl, rfl, rfl, rfl, rfl, rfl, rfl, rfl, rfl, ?_, rfl⟩
  rfl

/-! ## Reachability and the seed-life invariant -/

/-- Machines reachable by the driver: from a freshly powered instance
through any sequence of `trng_instantiate`, `trng_reseed`,
`trng_generate` and `trng_release` calls, over every hardware oracle
(a `panic()` has no successor state). -/
inductive Reachable : Mach → Prop
  | init (v : TrngVersion) (regs : Nat → Nat) : Reachable ⟨initTrng v, regs⟩
  | instantiate {m : Mach} {p : Mach × TeeResult} (cfg : TrngUsrCfg)
      (rin : ReseedIn) : Reachable m →
      trng_instantiate m cfg rin = some p → Reachable p.1
  | reseed {m : Mach} {p : Mach × TeeResult} (eseed : Option (List Nat))
      (mul : Nat) (rin : ReseedIn) : Reachable m →
      trng_reseed m eseed mul rin = some p → Reachable p.1
  | generate {m : Mach} {g : GenRes} (bufNull : Bool) (blen : Nat)
      (predict : Bool) (gin : GenIn) : Reachable m →
      trng_generate m bufNull blen predict gin = some g → Reachable g.m
  | release {m : Mach} : Reachable m → Reachable (trng_release m).1

/-- Seed-life bounds: a configured HRNG instance (non-zero seed life)
never exceeds its seed life; a configured DRNG instance never exceeds
it by more than one. -/
def SeedLifeInv (t : TrngState) : Prop :=
  (t.usr_cfg.mode = TrngMode.hrng → t.usr_cfg.seed_life ≠ 0 →
    t.stats.elapsed_seed_life ≤ t.usr_cfg.seed_life)
  ∧ (t.usr_cfg.mode = TrngMode.drng → t.usr_cfg.seed_life ≠ 0 →
    t.stats.elapsed_seed_life ≤ t.usr_cfg.seed_life + 1)

theorem inv_of_elapsed_zero {t : TrngState}
    (h : t.stats.elapsed_seed_life = 0) : SeedLifeInv t :=
  ⟨fun _ _ => by omega, fun _ _ => by omega⟩

theorem inv_errT {t : TrngState} (h : SeedLifeInv t) :
    SeedLifeInv (errT t) := h

theorem inv_of_reseed_internal {t : TrngState} {regs : Nat → Nat}
    {eseed str : Option (List Nat)} {mul : Nat} {rin : ReseedIn}
    {t1 : TrngState} {regs1 : Nat → Nat} {r : TeeResult}
    (h : trng_reseed_internal t regs eseed str mul rin
      = some (t1, regs1, r)) : SeedLifeInv t1 :=
  inv_of_elapsed_zero (trng_reseed_internal_state h).2.1

theorem inv_status {t : TrngState} (s : TrngStatus) (h : SeedLifeInv t) :
    SeedLifeInv { t with status := s } := h

theorem inv_genFail {m : Mach} (muls : List Nat) (h : SeedLifeInv m.t) :
    SeedLifeInv (genFail m muls).m.t := by
  constructor
  · intro h1 h2
    simp only [genFail_usr_cfg] at h1 h2
    simp only [genFail_usr_cfg, genFail_stats]
    exact h.1 h1 h2
  · intro h1 h2
    simp only [genFail_usr_cfg] at h1 h2
    simp only [genFail_usr_cfg, genFail_stats]
    exact h.2 h1 h2

set_option maxHeartbeats 1000000 in
theorem inv_instantiate {m : Mach} {cfg : TrngUsrCfg} {rin : ReseedIn}
    {p : Mach × TeeResult} (h : trng_instantiate m cfg rin = some p)
    (hm : SeedLifeInv m.t) : SeedLifeInv p.1.t := by
  rw [trng_instantiate] at h
  split at h
  · simp only [Option.some_inj] at h; rw [← h]; exact inv_errT hm
  · split at h
    · simp only [Option.some_inj] at h; rw [← h]; exact inv_errT hm
    · split at h
      · simp only [Option.some_inj] at h; rw [← h]; exact inv_errT hm
      · split at h
        · simp only [Option.some_inj] at h; rw [← h]; exact inv_errT hm
        · split at h
          · simp only [Option.some_inj] at h; rw [← h]; exact inv_errT hm
          · split at h
            · simp only [Option.some_inj] at h; rw [← h]; exact inv_errT hm
            · split at h
              · simp only [Option.some_inj] at h; rw [← h]
                exact inv_errT hm
              · dsimp only at h
                split at h
                · split at h
                  · simp at h
                  · rename_i t1 regs1 r heq
                    split at h
                    · simp only [Option.some_inj] at h; rw [← h]
                      exact inv_errT (inv_of_reseed_internal heq)
                    · simp only [Option.some_inj] at h; rw [← h]
                      exact inv_status _ (inv_of_reseed_internal heq)
                · rename_i hn
                  simp only [Option.some_inj] at h
                  rw [← h]
                  have hmode : cfg.mode = TrngMode.ptrng := by
                    by_contra hc
                    exact hn (by simpa using hc)
                  refine ⟨fun h1 h2 => ?_, fun h1 h2 => ?_⟩
                  · dsimp only at h1
                    rw [hmode] at h1
                    cases h1
                  · dsimp only at h1
                    rw [hmode] at h1
                    cases h1

set_option maxHeartbeats 1000000 in
theorem inv_trng_reseed {m : Mach} {eseed : Option (List Nat)} {mul : Nat}
    {rin : ReseedIn} {p : Mach × TeeResult}
    (h : trng_reseed m eseed mul rin = some p) (hm : SeedLifeInv m.t) :
    SeedLifeInv p.1.t := by
  rw [trng_reseed.eq_def] at h
  split at h
  · simp only [Option.some_inj] at h; rw [← h]; exact inv_errT hm
  · split at h
    · simp only [Option.some_inj] at h; rw [← h]; exact inv_errT hm
    · split at h
      · simp only [Option.some_inj] at h; rw [← h]; exact inv_errT hm
      · split at h
        · simp only [Option.some_inj] at h; rw [← h]; exact inv_errT hm
        · split at h
          · simp only [Option.some_inj] at h; rw [← h]; exact inv_errT hm
          · split at h
            · simp only [Option.some_inj] at h; rw [← h]; exact inv_errT hm
            · split at h
              · simp only [Option.some_inj] at h; rw [← h]
                exact inv_errT hm
              · split at h
                · simp at h
                · rename_i t1 regs1 r heq
                  split at h
                  · simp only [Option.some_inj] at h; rw [← h]
                    exact inv_errT (inv_of_reseed_internal heq)
                  · simp only [Option.some_inj] at h; rw [← h]
                    exact inv_of_reseed_internal heq

set_option maxHeartbeats 1000000 in
theorem inv_generate {m : Mach} {bufNull : Bool} {blen : Nat}
    {predict : Bool} {gin : GenIn} {g : GenRes}
    (h : trng_generate m bufNull blen predict gin = some g)
    (hm : SeedLifeInv m.t) : SeedLifeInv g.m.t := by
  rw [trng_generate] at h
  split at h
  · simp only [Option.some_inj] at h; rw [← h]; exact inv_genFail [] hm
  · split at h
    · simp only [Option.some_inj] at h; rw [← h]; exact inv_genFail [] hm
    · split at h
      · simp only [Option.some_inj] at h; rw [← h]; exact inv_genFail [] hm
      · split at h
        · simp only [Option.some_inj] at h; rw [← h]; exact inv_genFail [] hm
        · split at h
          · simp only [Option.some_inj] at h; rw [← h]
            exact inv_genFail [] hm
          · split at h
            · -- HRNG branch
              rename_i heqm
              rw [genHrng] at h
              split at h
              · simp at h
              · rename_i m1 r1 muls1 heq1
                have hs1 := reseedStep_state heq1
                have hstage1 : SeedLifeInv m1.t
                    ∧ m1.t.usr_cfg = m.t.usr_cfg
                    ∧ (m1.t.usr_cfg.seed_life ≠ 0 →
                        m1.t.stats.elapsed_seed_life + 1
                          ≤ m1.t.usr_cfg.seed_life) := by
                  cases hc1 : decide (m.t.stats.elapsed_seed_life
                      ≥ m.t.usr_cfg.seed_life) with
                  | true =>
                    obtain ⟨-, hel1, -, -⟩ := hs1.2.2 hc1
                    exact ⟨inv_of_elapsed_zero hel1, hs1.1,
                      fun hsl => by omega⟩
                  | false =>
                    obtain ⟨hme, -, -⟩ := hs1.2.1 hc1
                    rw [hme]
                    have hlt := of_decide_eq_false hc1
                    exact ⟨hm, rfl, fun _ => by omega⟩
                split at h
                · simp only [Option.some_inj] at h; rw [← h]
                  exact inv_genFail muls1 hstage1.1
                · split at h
                  · simp at h
                  · rename_i m2 r2 muls2 heq2
                    have hs2 := reseedStep_state heq2
                    have hstage2 : SeedLifeInv m2.t
                        ∧ m2.t.usr_cfg = m.t.usr_cfg
                        ∧ (m2.t.usr_cfg.seed_life ≠ 0 →
                            m2.t.stats.elapsed_seed_life + 1
                              ≤ m2.t.usr_cfg.seed_life) := by
                      cases hc2 : (predict && decide
                          (m1.t.stats.elapsed_seed_life > 0)) with
                      | true =>
                        obtain ⟨-, hel2, -, -⟩ := hs2.2.2 hc2
                        exact ⟨inv_of_elapsed_zero hel2,
                          hs2.1.trans hstage1.2.1, fun hsl => by
                            rw [hel2]
                            rw [hs2.1.trans hstage1.2.1] at hsl ⊢
                            have := hstage1.2.2
                            rw [hstage1.2.1] at this
                            omega⟩
                      | false =>
                        obtain ⟨hme, -, -⟩ := hs2.2.1 hc2
                        subst hme
                        exact hstage1
                    split at h
                    · simp only [Option.some_inj] at h; rw [← h]
                      exact inv_genFail (muls1 ++ muls2) hstage2.1
                    · have hgt := genTail_state h
                      have hgu : g.m.t.usr_cfg = m2.t.usr_cfg := hgt.1
                      constructor
                      · intro h1 h2
                        rw [hgu, hstage2.2.1] at h1 h2 ⊢
                        cases hr : g.res with
                        | success =>
                          have he := hgt.2.2.2.1 hr
                          simp only at he
                          rw [he]
                          have := hstage2.2.2
                          rw [hstage2.2.1] at this
                          exact this h2
                        | errorGeneric =>
                          have he := hgt.2.2.2.2 hr
                          simp only at he
                          rw [he]
                          have := hstage2.2.2
                          rw [hstage2.2.1] at this
                          have h3 := this h2
                          omega
                      · intro h1 h2
                        rw [hgu, hstage2.2.1, heqm] at h1
                        cases h1
            · -- DRNG branch
              rename_i heqm
              rw [genDrng] at h
              split at h
              · simp only [Option.some_inj] at h; rw [← h]
                exact inv_genFail [] hm
              · split at h
                · simp only [Option.some_inj] at h; rw [← h]
                  exact inv_genFail [] hm
                · rename_i hnle hnpred
                  have hgt := genTail_state h
                  have hgu : g.m.t.usr_cfg = m.t.usr_cfg := hgt.1
                  constructor
                  · intro h1 h2
                    rw [hgu, heqm] at h1
                    cases h1
                  · intro h1 h2
                    rw [hgu] at h1 h2 ⊢
                    have hle : m.t.stats.elapsed_seed_life
                        ≤ m.t.usr_cfg.seed_life := by omega
                    cases hr : g.res with
                    | success =>
                      have he := hgt.2.2.2.1 hr
                      simp only at he
                      rw [he]
                      omega
                    | errorGeneric =>
                      have he := hgt.2.2.2.2 hr
                      simp only at he
                      rw [he]
                      omega
            · -- PTRNG branch
              rename_i heqm
              rw [genPtrng] at h
              split at h
              · dsimp only at h
                have hgt := genTail_state h
                have hgu : g.m.t.usr_cfg = m.t.usr_cfg := hgt.1
                constructor
                · intro h1 h2
                  rw [hgu, heqm] at h1
                  cases h1
                · intro h1 h2
                  rw [hgu, heqm] at h1
                  cases h1
              · dsimp only at h
                have hgt := genTail_state h
                have hgu : g.m.t.usr_cfg = m.t.usr_cfg := hgt.1
                constructor
                · intro h1 h2
                  rw [hgu, heqm] at h1
                  cases h1
                · intro h1 h2
                  rw [hgu, heqm] at h1
                  cases h1

theorem inv_release (m : Mach) (hm : SeedLifeInv m.t) :
    SeedLifeInv (trng_release m).1.t := by
  rw [trng_release]
  split
  · exact inv_errT hm
  · exact ⟨fun _ h2 => absurd rfl h2, fun _ h2 => absurd rfl h2⟩

/-- C3 (amended): in every reachable machine, a configured HRNG
instance (non-zero seed life) satisfies
`elapsed_seed_life ≤ seed_life`, while a configured DRNG instance only
satisfies the weaker bound `elapsed_seed_life ≤ seed_life + 1` — the
original `elapsed_seed_life ≤ seed_life` bound for DRNG is refuted by
`drng_seed_life_exceeded`, since a DRNG generate is rejected only when
`elapsed_seed_life > seed_life` already holds at entry and a successful
call increments the counter.  Moreover an HRNG generate entered with
the seed life exhausted performs an implicit `trng_reseed_internal`
call (with `dfmul` argument 0), and a DRNG generate entered with
`elapsed_seed_life > seed_life` returns an error. -/
theorem trng_seed_life_invariant (m : Mach) (hr : Reachable m) :
    SeedLifeInv m.t
    ∧ (∀ (blen : Nat) (gin : GenIn) (g : GenRes),
        TRNG_SEC_STRENGTH_LEN ≤ blen →
        m.t.usr_cfg.mode = TrngMode.hrng →
        m.t.status = TrngStatus.healthy →
        m.t.usr_cfg.seed_life ≤ m.t.stats.elapsed_seed_life →
        trng_generate m false blen false gin = some g →
        0 ∈ g.reseedMuls)
    ∧ (∀ (bufNull : Bool) (blen : Nat) (predict : Bool) (gin : GenIn)
        (g : GenRes),
        m.t.usr_cfg.mode = TrngMode.drng →
        m.t.usr_cfg.seed_life < m.t.stats.elapsed_seed_life →
        trng_generate m bufNull blen predict gin = some g →
        g.res = TeeResult.errorGeneric) := by
  refine ⟨?_, ?_, ?_⟩
  · induction hr with
    | init v regs => exact inv_of_elapsed_zero rfl
    | instantiate cfg rin hmr heq ih => exact inv_instantiate heq ih
    | reseed eseed mul rin hmr heq ih => exact inv_trng_reseed heq ih
    | generate bufNull blen predict gin hmr heq ih =>
      exact inv_generate heq ih
    | release hmr ih => exact inv_release _ ih
  · intro blen gin g hblen hmode hst htrig h
    rw [trng_generate_healthy m blen false gin (by omega) hst
      (by simp) (by simp)] at h
    rw [hmode] at h
    dsimp only at h
    rw [genHrng] at h
    have hc1d : decide (m.t.stats.elapsed_seed_life
        ≥ m.t.usr_cfg.seed_life) = true := decide_eq_true htrig
    rw [hc1d] at h
    split at h
    · simp at h
    · rename_i m1 r1 muls1 heq1
      obtain ⟨hm1, -, -, -⟩ := (reseedStep_state heq1).2.2 rfl
      subst hm1
      split at h
      · simp only [Option.some_inj] at h
        rw [← h]
        simp
      · split at h
        · simp at h
        · rename_i m2 r2 muls2 heq2
          obtain ⟨-, hmul2, -⟩ := (reseedStep_state heq2).2.1 (by simp)
          subst hmul2
          split at h
          · simp only [Option.some_inj] at h
            rw [← h]
            simp
          · have hgt := genTail_state h
            rw [hgt.2.2.1]
            simp
  · intro bufNull blen predict gin g hmode hover h
    rw [trng_generate] at h
    split at h
    · simp only [Option.some_inj] at h; rw [← h]; simp
    · split at h
      · simp only [Option.some_inj] at h; rw [← h]; simp
      · split at h
        · simp only [Option.some_inj] at h; rw [← h]; simp
        · split at h
          · simp only [Option.some_inj] at h; rw [← h]; simp
          · split at h
            · simp only [Option.some_inj] at h; rw [← h]; simp
            · split at h
              · rename_i heqm
                rw [heqm] at hmode
                cases hmode
              · rw [genDrng] at h
                rw [if_pos hover] at h
                simp only [Option.some_inj] at h
                rw [← h]
                simp
              · rename_i heqm
                rw [heqm] at hmode
                cases hmode

/-- Configuration of the DRNG counterexample run: DRNG without the DF,
seed life 1, caller seed supplied. -/
def c3Cfg : TrngUsrCfg where
  mode := TrngMode.drng
  seed_life := 1
  predict_en := false
  iseed_en := true
  pstr_en := false
  df_disable := true
  dfmul := 0
  init_seed := List.replicate TRNG_SEED_LEN 1
  pstr := []

/-- Freshly powered V1 machine for the counterexample run. -/
def c3M0 : Mach := ⟨initTrng TrngVersion.v1, fun _ => 0⟩

/-- Generate oracle for the counterexample run. -/
def c3Gin : GenIn := ⟨okReseedIn, okReseedIn, genBurstIns, []⟩

/-- The instantiate call of the counterexample run. -/
def c3Inst : Option (Mach × TeeResult) :=
  trng_instantiate c3M0 c3Cfg okReseedIn

/-- Machine after the instantiate call. -/
def c3M1 : Mach := (c3Inst.getD (c3M0, TeeResult.errorGeneric)).1

/-- First generate call (32 bytes, no prediction resistance). -/
def c3G1 : Option GenRes := trng_generate c3M1 false 32 false c3Gin

/-- Machine after the first generate call. -/
def c3M2 : Mach := (c3G1.getD ⟨c3M1, TeeResult.errorGeneric, [], []⟩).m

/-- Second generate call. -/
def c3G2 : Option GenRes := trng_generate c3M2 false 32 false c3Gin

/-- Machine after the second generate call. -/
def c3M3 : Mach := (c3G2.getD ⟨c3M2, TeeResult.errorGeneric, [], []⟩).m

/-- C3 counterexample to the original DRNG bound: after instantiating a
DRNG instance with seed life 1 and generating twice (both calls
succeed: the entry check only rejects `elapsed_seed_life > seed_life`),
the reachable machine has `elapsed_seed_life = 2 > seed_life = 1`.  So
`elapsed_seed_life ≤ seed_life` does not hold in every reachable state
of a DRNG-configured instance. -/
theorem drng_seed_life_exceeded :
    Reachable c3M3
    ∧ c3M3.t.usr_cfg.mode = TrngMode.drng
    ∧ c3M3.t.usr_cfg.seed_life ≠ 0
    ∧ c3M3.t.usr_cfg.seed_life < c3M3.t.stats.elapsed_seed_life := by
  have h1 : c3Inst.isSome = true := rfl
  have hh1 : c3Inst = some (c3Inst.getD (c3M0, TeeResult.errorGeneric)) := by
    cases hc : c3Inst with
    | none => rw [hc] at h1; simp at h1
    | some p => simp [hc]
  have h2 : c3G1.isSome = true := rfl
  have hh2 : c3G1
      = some (c3G1.getD ⟨c3M1, TeeResult.errorGeneric, [], []⟩) := by
    cases hc : c3G1 with
    | none => rw [hc] at h2; simp at h2
    | some g => simp [hc]
  have h3 : c3G2.isSome = true := rfl
  have hh3 : c3G2
      = some (c3G2.getD ⟨c3M2, TeeResult.errorGeneric, [], []⟩) := by
    cases hc : c3G2 with
    | none => rw [hc] at h3; simp at h3
    | some g => simp [hc]
  have r1 : Reachable c3M1 :=
    Reachable.instantiate c3Cfg okReseedIn
      (Reachable.init TrngVersion.v1 (fun _ => 0)) hh1
  have r2 : Reachable c3M2 :=
    Reachable.generate false 32 false c3Gin r1 hh2
  have r3 : Reachable c3M3 :=
    Reachable.generate false 32 false c3Gin r2 hh3
  have hsl : c3M3.t.usr_cfg.seed_life = 1 := rfl
  have hel : c3M3.t.stats.elapsed_seed_life = 2 := rfl
  exact ⟨r3, rfl, by rw [hsl]; omega, by rw [hsl, hel]; omega⟩

/-- Witness for the C3 theorem at a concrete reachable machine. -/
theorem trng_seed_life_invariant_witness :
    SeedLifeInv (initTrng TrngVersion.v1) :=
  (trng_seed_life_invariant ⟨initTrng TrngVersion.v1, fun _ => 0⟩
    (Reachable.init TrngVersion.v1 (fun _ => 0))).1

end VersalTrng
